import Mathlib

/-!
# Verification of `src/libply/provider/xprobe.c`

A shallow embedding of ply's xprobe provider: creation of kernel dynamic
probes through the tracefs control file, glob-based discovery of the
resulting events, attaching perf handles, and teardown.

Modelling conventions:
* C strings are modelled as Lean `String`s (`List Char`-backed in this
  toolchain); one `Char` stands for one byte, so `String.length` models
  `strlen`.
* The control `FILE` is modelled as a buffer of structured directives plus
  a close counter; `fflush` applies the buffered directives to the kernel
  (tracefs) state.  A ghost append-only `written` log records every
  directive ever handed to `fputs`, and ghost lists record the fds passed
  to `close` and the results of every `perf_event_attach` call.
* tracefs is modelled as the list of event names (relative to the
  `events/` directory); the constant `TRACEPATH` prefix added by
  `xprobe_glob` and stripped again via `evstart` cancels out and is
  elided.  `glob(3)` over that directory is modelled as filtering the
  event list by the `p<id>_` prefix; `glob` with no match returns
  `GLOB_NOMATCH`, which `xprobe_glob` turns into `-EINVAL` (-22).
* External collaborators are parameters: `accept` says which create
  directives the kernel accepts, `flushOk` is an oracle giving the result
  of the n-th `fflush` call, `attachFn` is `perf_event_attach`, and `fnm`
  is `fnmatch(3)` (a concrete executable model `globMatch` covering the
  `*`/`?` subset is provided for witnesses).
* `errno`-derived codes are fixed model constants: `-22` (`EINVAL`) for
  glob failure and `setvbuf` failure, `-5` (`EIO`) for a failed explicit
  `fflush` reported via `-errno`, `-2` for `fopen` failure, and `-1`
  (`EOF`) for the raw nonzero return of `fflush` inside the delete loop.
-/

/-- A directive written to the tracefs control file.
`create stem funcname func` models the line `<stem><funcname> <func>\n`
produced by `__xprobe_create` (where `funcname` is already sanitized);
`delete ev` models the line `-:<ev>\n` produced by `__xprobe_delete`. -/
inductive Directive where
  | create : String → String → String → Directive
  | delete : String → Directive
deriving DecidableEq

/-- The control `FILE` stream.  `buf` holds directives written since the
last flush; `closeCount` counts `fclose` calls; `written` is a ghost log
of every directive ever written. -/
structure Chan where
  buf : List Directive
  closeCount : Nat
  written : List Directive
deriving DecidableEq

/-- The `struct xprobe` provider data (fields as used by `xprobe.c`).
`ctrl` models whether the `FILE *ctrl` pointer is non-null — note that it
is NOT reset by `fclose`, exactly as in the C code.  `evfds = none`
models a NULL `int *evfds`. -/
structure Xprobe where
  ctrl : Bool
  typ : Char
  pattern : String
  stem : String
  n_evs : Nat
  evfds : Option (List Int)
deriving DecidableEq

/-- The whole system state: the probe, its control stream, the tracefs
event directory, the flush-oracle cursor, and ghost observations
(warning count, fds passed to `close`, results of `perf_event_attach`).
`group` models `pb->ply->group`, `pid` the hex rendering of the
`(uintptr_t)pb` instance id, `ksyms` the kernel symbol table
(`none` = `pb->ply->ksyms` is NULL).  `nullDeref` is a ghost fault flag:
it records that the program dereferenced a NULL `evfds` array (a crash);
once it is set, the model's further deterministic evolution is a
fiction with no C counterpart and is only carried along so the fault
itself remains observable. -/
structure Sys where
  xp : Xprobe
  chan : Chan
  events : List String
  flushCount : Nat
  warns : Nat
  closedFds : List Int
  attachedFds : List Int
  group : String
  pid : String
  ksyms : Option (List String)
  nullDeref : Bool
deriving DecidableEq

/-- `xprobe_stem`: `snprintf(stem, size, "%c:%s/p%"PRIxPTR"_", type, group, pb)`. -/
def mkStem (typ : Char) (group pid : String) : String :=
  String.singleton typ ++ ":" ++ group ++ "/p" ++ pid ++ "_"

/-- The event-name prefix used by `xprobe_glob`: `"%s/p%"PRIxPTR"_"`
(relative to the `events/` directory). -/
def globPfx (group pid : String) : String :=
  group ++ "/p" ++ pid ++ "_"

/-- The kernel's view of a create directive's event name: the part of the
stem after the `<type>:` discriminator, followed by the sanitized name. -/
def stemLocal (stem : String) : String :=
  ⟨stem.data.drop 2⟩

/-- Append a directive to the stream buffer (the `fputs`/`fputc` calls),
also recording it in the ghost log. -/
def chanWrite (s : Sys) (d : Directive) : Sys :=
  { s with chan := { s.chan with buf := s.chan.buf ++ [d],
                                 written := s.chan.written ++ [d] } }

/-- Kernel-side effect of one accepted create directive on the event
directory: the event appears unless the kernel rejected the definition
or an entry of that name already exists. -/
def addEvent (accept : String → Bool) (evs : List String) (ev : String) : List String :=
  if accept ev && !evs.contains ev then evs ++ [ev] else evs

/-- Kernel-side interpretation of one flushed directive: an accepted
create adds the event, a delete removes it. -/
def applyDirective (accept : String → Bool) (evs : List String) :
    Directive → List String
  | .create stem funcname _ => addEvent accept evs (stemLocal stem ++ funcname)
  | .delete ev => evs.erase ev

/-- `fflush(xp->ctrl)`: consult the oracle for this call; on success the
buffered directives reach the kernel, on failure the buffered data is
lost.  Returns `true` on success. -/
def doFflush (accept : String → Bool) (flushOk : Nat → Bool) (s : Sys) :
    Bool × Sys :=
  let ok := flushOk s.flushCount
  let s := { s with flushCount := s.flushCount + 1 }
  if ok then
    (true, { s with events := s.chan.buf.foldl (applyDirective accept) s.events,
                    chan := { s.chan with buf := [] } })
  else
    (false, { s with chan := { s.chan with buf := [] } })

/-- `fclose(xp->ctrl)`: flush (result ignored, as in the C call sites)
then mark the stream closed.  Does NOT null `xp->ctrl`. -/
def doFclose (accept : String → Bool) (flushOk : Nat → Bool) (s : Sys) : Sys :=
  let s := (doFflush accept flushOk s).2
  { s with chan := { s.chan with closeCount := s.chan.closeCount + 1 } }

/-- Replace the first `'+'` by `'_'` (`offs = strchr(funcname, '+'); if (offs) *offs = '_';`). -/
def replaceFirstPlus : List Char → List Char
  | [] => []
  | c :: cs => if c = '+' then '_' :: cs else c :: replaceFirstPlus cs

/-- Replace every `'.'` by `'_'` (the `for` loop in `__xprobe_create`). -/
def replaceDots (cs : List Char) : List Char :=
  cs.map fun c => if c = '.' then '_' else c

/-- The in-place sanitization `__xprobe_create` performs on its `strdup`
of `func`: first `'+'`, then every `'.'`, replaced by `'_'`. -/
def sanitize (func : String) : String :=
  ⟨replaceDots (replaceFirstPlus func.data)⟩

/-- The exact bytes `__xprobe_create` writes for one directive:
`fputs(stem); fputs(funcname); fputc(' '); fputs(func); fputc('\n')`. -/
def createLine (stem func : String) : String :=
  stem ++ sanitize func ++ " " ++ func ++ "\n"

/-- The exact bytes `__xprobe_delete` writes: `"-:" <func> "\n"`. -/
def deleteLine (ev : String) : String :=
  "-:" ++ ev ++ "\n"

/-- `__xprobe_create`: write the directive, return
`strlen(stem) + 2 * strlen(func) + 2`. -/
def __xprobe_create (s : Sys) (stem func : String) : Nat × Sys :=
  (stem.length + 2 * func.length + 2,
   chanWrite s (.create stem (sanitize func) func))

/-- `__xprobe_delete`: write the directive, return `2 + strlen(func) + 1`. -/
def __xprobe_delete (s : Sys) (ev : String) : Nat × Sys :=
  (2 + ev.length + 1, chanWrite s (.delete ev))

/-- `xprobe_glob`: glob `events/<group>/p<id>_*`; `glob` returns
`GLOB_NOMATCH` when nothing matches, which becomes `-EINVAL`; otherwise
the (stably ordered) match list is returned. -/
def xprobe_glob (s : Sys) : Int × List String :=
  let gl := s.events.filter fun ev => (globPfx s.group s.pid).data.isPrefixOf ev.data
  if gl.isEmpty then (-22, []) else (0, gl)

/-- The delete loop of `__xprobe_delete_all`: emit one delete directive
per discovered event, tracking the `pending` byte counter and forcing a
flush once it exceeds `0x1000 - 0x200`; a failed flush `break`s out,
returning `fflush`'s nonzero result (`EOF`, modelled as `-1`). -/
def deleteLoop (accept : String → Bool) (flushOk : Nat → Bool) :
    Sys → List String → Nat → Sys × Int
  | s, [], _ => (s, 0)
  | s, ev :: rest, pending =>
      let r := __xprobe_delete s ev
      let pending := pending + r.1
      if pending > 0x1000 - 0x200 then
        let f := doFflush accept flushOk r.2
        if f.1 then deleteLoop accept flushOk f.2 rest 0
        else (f.2, -1)
      else deleteLoop accept flushOk r.2 rest pending

/-- `__xprobe_delete_all`: glob the probe's events, warn on a count
mismatch with `n_evs`, and run the delete loop. -/
def __xprobe_delete_all (accept : String → Bool) (flushOk : Nat → Bool)
    (s : Sys) : Int × Sys :=
  let g := xprobe_glob s
  if g.1 ≠ 0 then (g.1, s)
  else
    let s := if g.2.length ≠ s.xp.n_evs then { s with warns := s.warns + 1 } else s
    let r := deleteLoop accept flushOk s g.2 0
    (r.2, r.1)

/-- `__xprobe_detach`: `close` every fd in `evfds` (results ignored),
free the array, return 0.  When `evfds` is NULL and `n_evs > 0`, the
very first iteration of the C loop dereferences NULL
(`close(xp->evfds[i])`, xprobe.c:121) and the program crashes; the model
records that fault in the ghost `nullDeref` flag. -/
def __xprobe_detach (s : Sys) : Int × Sys :=
  let s :=
    match s.xp.evfds with
    | some fds => { s with closedFds := s.closedFds ++ fds }
    | none => if 0 < s.xp.n_evs then { s with nullDeref := true } else s
  (0, { s with xp := { s.xp with evfds := none } })

/-- `xprobe_detach`: no-op if `xp->ctrl` is NULL; otherwise release
handles, delete all events, flush, and `fclose` on every path.  Note the
`goto err_close` skips the explicit final flush when `__xprobe_delete_all`
fails, and `xp->ctrl` is never nulled. -/
def xprobe_detach (accept : String → Bool) (flushOk : Nat → Bool)
    (s : Sys) : Int × Sys :=
  if !s.xp.ctrl then (0, s)
  else
    let r := __xprobe_detach s
    if r.1 ≠ 0 then (r.1, doFclose accept flushOk r.2)
    else
      let r := __xprobe_delete_all accept flushOk r.2
      if r.1 ≠ 0 then (r.1, doFclose accept flushOk r.2)
      else
        let f := doFflush accept flushOk r.2
        let err : Int := if f.1 then 0 else -5
        (err, doFclose accept flushOk f.2)

/-- The loop body of `xprobe_create_pattern`: for every kernel symbol
matching `pattern` (`fnmatch` returning 0), emit a create directive,
increment `n_evs`, and force a flush so a rejected probe can be
attributed; a flush failure only logs a warning. -/
def createPatternLoop (fnm : String → String → Bool)
    (accept : String → Bool) (flushOk : Nat → Bool) :
    Sys → List String → Sys
  | s, [] => s
  | s, sym :: rest =>
      if fnm s.xp.pattern sym then
        let s := (__xprobe_create s s.xp.stem sym).2
        let s := { s with xp := { s.xp with n_evs := s.xp.n_evs + 1 } }
        let f := doFflush accept flushOk s
        let s := if f.1 then f.2 else { f.2 with warns := f.2.warns + 1 }
        createPatternLoop fnm accept flushOk s rest
      else createPatternLoop fnm accept flushOk s rest

/-- `xprobe_create_pattern`: iterate `ksyms_foreach`; always returns 0. -/
def xprobe_create_pattern (fnm : String → String → Bool)
    (accept : String → Bool) (flushOk : Nat → Bool) (s : Sys) : Int × Sys :=
  match s.ksyms with
  | some syms => (0, createPatternLoop fnm accept flushOk s syms)
  | none => (0, s)

/-- `strpbrk(xp->pattern, "?*[!@")` is non-null: the pattern contains a
glob / extended-glob metacharacter. -/
def hasMeta (p : String) : Bool :=
  p.data.any fun c => c ∈ ['?', '*', '[', '!', '@']

/-- `xprobe_create`: compute the stem, go through the pattern path iff
the target has a metacharacter AND `ksyms` is available, else emit a
single literal create; then flush (`-errno`, modelled `-5`, on failure). -/
def xprobe_create (fnm : String → String → Bool) (accept : String → Bool)
    (flushOk : Nat → Bool) (s : Sys) : Int × Sys :=
  let s := { s with xp := { s.xp with stem := mkStem s.xp.typ s.group s.pid } }
  let r :=
    if hasMeta s.xp.pattern && s.ksyms.isSome then
      xprobe_create_pattern fnm accept flushOk s
    else
      let s := (__xprobe_create s s.xp.stem s.xp.pattern).2
      (0, { s with xp := { s.xp with n_evs := s.xp.n_evs + 1 } })
  if r.1 ≠ 0 then r
  else
    let f := doFflush accept flushOk r.2
    ((if f.1 then 0 else -5 : Int), f.2)

/-- The attach loop of `__xprobe_attach`: store
`perf_event_attach(pb, path)` into `evfds[i]`; a negative result sets
`err` and `break`s.  Returns the list of `(index, fd)` stores performed
and the final `err` (0 from the successful glob if no attach failed). -/
def attachLoop (attachFn : String → Int) :
    List String → Nat → List (Nat × Int) × Int
  | [], _ => ([], 0)
  | ev :: rest, i =>
      let fd := attachFn ev
      if fd < 0 then ([(i, fd)], fd)
      else
        let r := attachLoop attachFn rest (i + 1)
        ((i, fd) :: r.1, r.2)

/-- Apply a list of `(index, value)` stores to the `evfds` array.
`List.set` out of bounds is a no-op in Lean; the C analogue is an
out-of-bounds write, exposed separately via the recorded indices. -/
def setWrites (fds : List Int) (ws : List (Nat × Int)) : List Int :=
  ws.foldl (fun l p => l.set p.1 p.2) fds

/-- `__xprobe_attach`: glob the events (`-EINVAL` if none), warn on a
count mismatch with `n_evs`, then attach a perf handle per discovered
event, recording each result (ghost `attachedFds`). -/
def __xprobe_attach (attachFn : String → Int) (s : Sys) : Int × Sys :=
  let g := xprobe_glob s
  if g.1 ≠ 0 then (g.1, s)
  else
    let s := if g.2.length ≠ s.xp.n_evs then { s with warns := s.warns + 1 } else s
    let r := attachLoop attachFn g.2 0
    (r.2, { s with xp := { s.xp with evfds := some (setWrites (s.xp.evfds.getD []) r.1) },
                   attachedFds := s.attachedFds ++ r.1.map Prod.snd })

/-- The `err_close` tail of `xprobe_attach`: `__xprobe_delete_all`
(result ignored) then `fclose`, returning the original error. -/
def attachErrClose (accept : String → Bool) (flushOk : Nat → Bool)
    (err : Int) (s : Sys) : Int × Sys :=
  let r := __xprobe_delete_all accept flushOk s
  (err, doFclose accept flushOk r.2)

/-- `xprobe_attach`: `fopen` the control file (fresh stream), `setvbuf`
a 4096-byte full buffer, create the probes, `xcalloc` the handle array
(zero-initialized, `n_evs` slots), attach; on failure unwind through
`err_detach`/`err_close`. -/
def xprobe_attach (fnm : String → String → Bool) (accept : String → Bool)
    (flushOk : Nat → Bool) (attachFn : String → Int)
    (openOk setvbufOk : Bool) (s : Sys) : Int × Sys :=
  if !openOk then (-2, s)
  else
    let s := { s with xp := { s.xp with ctrl := true },
                      chan := { buf := [], closeCount := 0, written := [] } }
    if !setvbufOk then attachErrClose accept flushOk (-22) s
    else
      let r := xprobe_create fnm accept flushOk s
      if r.1 ≠ 0 then attachErrClose accept flushOk r.1 r.2
      else
        let s := { r.2 with xp := { r.2.xp with evfds := some (List.replicate r.2.xp.n_evs 0) } }
        let r := __xprobe_attach attachFn s
        if r.1 ≠ 0 then
          let s := (__xprobe_detach r.2).2
          attachErrClose accept flushOk r.1 s
        else (0, r.2)

/-- Executable model of `fnmatch(3)` restricted to the `*` and `?`
metacharacters (sufficient for the concrete patterns exercised here);
other characters match literally.  Structural recursion on a fuel
argument; every step shrinks `ps.length + cs.length`, so
`ps.length + cs.length + 1` fuel is always enough. -/
def globMatch : Nat → List Char → List Char → Bool
  | 0, _, _ => false
  | _ + 1, [], [] => true
  | f + 1, '*' :: ps, [] => globMatch f ps []
  | f + 1, '*' :: ps, c :: cs =>
      globMatch f ps (c :: cs) || globMatch f ('*' :: ps) cs
  | f + 1, '?' :: ps, _ :: cs => globMatch f ps cs
  | f + 1, p :: ps, c :: cs => decide (p = c) && globMatch f ps cs
  | _ + 1, _, _ => false

/-- `fnmatch` as used by `xprobe_create_pattern` (pattern, then symbol). -/
def fnmatchModel (pat sym : String) : Bool :=
  globMatch (pat.data.length + sym.data.length + 1) pat.data sym.data

/-- The all-successes flush oracle (healthy I/O). -/
def flushAll : Nat → Bool := fun _ => true

/-- The kernel accepting every submitted probe definition. -/
def acceptAll : String → Bool := fun _ => true

/-- The events of the control stream as they will stand once the buffer
reaches the kernel: buffered directives applied to the current state. -/
def effEvents (accept : String → Bool) (s : Sys) : List String :=
  s.chan.buf.foldl (applyDirective accept) s.events

/-- The event name a directive defines (for a delete, the name it removes). -/
def evnameOf : Directive → String
  | .create stem funcname _ => stemLocal stem ++ funcname
  | .delete ev => ev

/-- The list of create directives `xprobe_create` emits: one per matching
kernel symbol on the pattern path, exactly one for a literal target. -/
def createDirectives (fnm : String → String → Bool) (s : Sys) : List Directive :=
  let stem := mkStem s.xp.typ s.group s.pid
  if hasMeta s.xp.pattern && s.ksyms.isSome then
    ((s.ksyms.getD []).filter (fnm s.xp.pattern)).map fun sym =>
      Directive.create stem (sanitize sym) sym
  else [Directive.create stem (sanitize s.xp.pattern) s.xp.pattern]

/-- Flush accounting described by the (amended) flush-threshold policy:
starting from `pending` unflushed bytes, a forced flush fires exactly
when a directive's byte count pushes the counter strictly beyond
`0x1000 - 0x200 = 3584`, and resets it. -/
def chunkFlushes : List Nat → Nat → Nat
  | [], _ => 0
  | n :: rest, pending =>
      let pending := pending + n
      if pending > 0x1000 - 0x200 then 1 + chunkFlushes rest 0
      else chunkFlushes rest pending

/-- The state `xprobe_attach` reaches after `fopen`/`setvbuf` succeed:
control pointer set, fresh stream. -/
def openedSys (s : Sys) : Sys :=
  { s with xp := { s.xp with ctrl := true },
           chan := { buf := [], closeCount := 0, written := [] } }

/-- The state after the create phase of `xprobe_attach` (healthy flushes). -/
def afterCreate (fnm : String → String → Bool) (accept : String → Bool)
    (s : Sys) : Sys :=
  (xprobe_create fnm accept flushAll (openedSys s)).2

/-- The event list `xprobe_glob` discovers during attach. -/
def attachDiscovered (fnm : String → String → Bool) (accept : String → Bool)
    (s : Sys) : List String :=
  (afterCreate fnm accept s).events.filter fun ev =>
    (globPfx s.group s.pid).data.isPrefixOf ev.data

/-- `created_count` (`xp->n_evs`) after the create phase of attach. -/
def createdCount (fnm : String → String → Bool) (accept : String → Bool)
    (s : Sys) : Nat :=
  (afterCreate fnm accept s).xp.n_evs

/-- Index-tagged attach results: `(i, f l0), (i+1, f l1), …` — the stores
the attach loop performs when it does not stop early. -/
def withIdx (f : String → Int) : Nat → List String → List (Nat × Int)
  | _, [] => []
  | i, ev :: rest => (i, f ev) :: withIdx f (i + 1) rest

/-- A fresh literal-target ProbeSet (target carrying an offset suffix),
group `g`, instance id `1`, empty tracefs. -/
def litSys : Sys :=
  { xp := { ctrl := false, typ := 'k', pattern := "do_sys_open+0x10", stem := "",
            n_evs := 0, evfds := none },
    chan := { buf := [], closeCount := 0, written := [] },
    events := [], flushCount := 0, warns := 0, closedFds := [], attachedFds := [],
    group := "g", pid := "1", ksyms := none, nullDeref := false }

/-- A fresh pattern-target ProbeSet over the symbol source
`{foo, foobar, bar}` with pattern `foo*`. -/
def patSys : Sys :=
  { litSys with xp := { litSys.xp with pattern := "foo*" },
                ksyms := some ["foo", "foobar", "bar"] }

/-- A fresh pattern-target ProbeSet expanding to five probes. -/
def patSys5 : Sys :=
  { litSys with xp := { litSys.xp with pattern := "foo*" },
                ksyms := some ["foo1", "foo2", "foo3", "foo4", "foo5"] }

/-- An attach primitive failing exactly on the third of the five events
of `patSys5` (error `-13`), succeeding with fd `7` elsewhere. -/
def failOn3 : String → Int := fun ev => if ev = "g/p1_foo3" then -13 else 7

/-- A kernel silently rejecting the third of the five probe definitions
of `patSys5` and accepting the rest. -/
def rej3 : String → Bool := fun ev => ev ≠ "g/p1_foo3"

/-- An event name of exactly 3581 bytes: its delete directive is exactly
`3584` bytes of pending data (`2 + 3581 + 1`). -/
def bigEv : String := ⟨'g' :: '/' :: 'p' :: '1' :: '_' :: List.replicate 3576 'a'⟩

/-- An attached ProbeSet whose single event's delete directive lands the
pending counter exactly on the 3584-byte threshold. -/
def thresholdSys : Sys :=
  { litSys with xp := { litSys.xp with ctrl := true, n_evs := 1 },
                events := [bigEv] }

/-- An attached ProbeSet with 113 events of increasing name length whose
delete directives cross the flush threshold partway through the loop. -/
def manyEvSys : Sys :=
  { litSys with xp := { litSys.xp with ctrl := true, n_evs := 113 },
                events := (List.range 113).map fun k =>
                  ⟨'g' :: '/' :: 'p' :: '1' :: '_' :: List.replicate k 'a'⟩ }

/-- The all-failures flush oracle (the control file rejects every flush). -/
def flushNone : Nat → Bool := fun _ => false

/-- An attached ProbeSet with a single short event (`g/p1_x`), whose
delete directive keeps the pending counter far below the threshold. -/
def smallDetachSys : Sys :=
  { litSys with xp := { litSys.xp with ctrl := true, n_evs := 1 },
                events := ["g/p1_x"] }

/-! ## Basic lemmas: stems, sanitization, event folds -/

theorem stemLocal_mkStem (t : Char) (g p : String) :
    stemLocal (mkStem t g p) = globPfx g p := by
  cases g; cases p; rfl

theorem length_replaceFirstPlus (cs : List Char) :
    (replaceFirstPlus cs).length = cs.length := by
  induction cs with
  | nil => rfl
  | cons c cs ih =>
      by_cases h : c = '+' <;> simp [replaceFirstPlus, h, ih]

theorem length_replaceDots (cs : List Char) :
    (replaceDots cs).length = cs.length := by
  simp [replaceDots]

theorem sanitize_length (func : String) :
    (sanitize func).length = func.length := by
  show (replaceDots (replaceFirstPlus func.data)).length = func.data.length
  rw [length_replaceDots, length_replaceFirstPlus]

theorem replaceFirstPlus_of_not_mem {cs : List Char} (h : '+' ∉ cs) :
    replaceFirstPlus cs = cs := by
  induction cs with
  | nil => rfl
  | cons c cs ih =>
      simp only [List.mem_cons, not_or] at h
      simp [replaceFirstPlus, Ne.symm h.1, ih h.2]

theorem replaceFirstPlus_append {a b : List Char} (h : '+' ∉ a) :
    replaceFirstPlus (a ++ '+' :: b) = a ++ '_' :: b := by
  induction a with
  | nil => simp [replaceFirstPlus]
  | cons c cs ih =>
      simp only [List.mem_cons, not_or] at h
      simp [replaceFirstPlus, Ne.symm h.1, ih h.2]

theorem mem_replaceFirstPlus {c : Char} {cs : List Char}
    (h : c ∈ replaceFirstPlus cs) : c = '_' ∨ c ∈ cs := by
  induction cs with
  | nil => simp [replaceFirstPlus] at h
  | cons d ds ih =>
      by_cases hd : d = '+'
      · simp only [replaceFirstPlus, if_pos hd, List.mem_cons] at h
        rcases h with h | h
        · exact Or.inl h
        · exact Or.inr (List.mem_cons_of_mem _ h)
      · simp only [replaceFirstPlus, if_neg hd, List.mem_cons] at h
        rcases h with h | h
        · exact Or.inr (h ▸ List.mem_cons_self _ _)
        · rcases ih h with h | h
          · exact Or.inl h
          · exact Or.inr (List.mem_cons_of_mem _ h)

theorem mem_sanitize {c : Char} {func : String}
    (h : c ∈ (sanitize func).data) : c = '_' ∨ c ∈ func.data := by
  have : ∃ d, d ∈ replaceFirstPlus func.data ∧ (if d = '.' then '_' else d) = c := by
    simpa [sanitize, replaceDots] using h
  obtain ⟨d, hd, hc⟩ := this
  by_cases hdot : d = '.'
  · left; simp [hdot] at hc; exact hc.symm
  · simp [hdot] at hc
    subst hc
    exact mem_replaceFirstPlus hd

theorem foldl_addEvent_shape (accept : String → Bool) :
    ∀ (names l : List String), ∃ new,
      names.foldl (addEvent accept) l = l ++ new ∧ ∀ e ∈ new, e ∈ names := by
  intro names
  induction names with
  | nil => exact fun l => ⟨[], by simp⟩
  | cons n ns ih =>
      intro l
      by_cases h : accept n && !l.contains n
      · obtain ⟨new, hfold, hmem⟩ := ih (l ++ [n])
        refine ⟨n :: new, ?_, ?_⟩
        · simp only [List.foldl_cons, addEvent, if_pos h] at *
          simpa using hfold
        · intro e he
          rcases List.mem_cons.mp he with h' | h'
          · exact h' ▸ List.mem_cons_self _ _
          · exact List.mem_cons_of_mem _ (hmem e h')
      · obtain ⟨new, hfold, hmem⟩ := ih l
        refine ⟨new, ?_, fun e he => List.mem_cons_of_mem _ (hmem e he)⟩
        simp only [List.foldl_cons, addEvent, if_neg h]
        exact hfold

theorem foldl_addEvent_length (accept : String → Bool) :
    ∀ (names l : List String),
      (names.foldl (addEvent accept) l).length ≤ l.length + names.length := by
  intro names
  induction names with
  | nil => simp
  | cons n ns ih =>
      intro l
      simp only [List.foldl_cons, List.length_cons]
      calc (ns.foldl (addEvent accept) (addEvent accept l n)).length
          ≤ (addEvent accept l n).length + ns.length := ih _
        _ ≤ l.length + (ns.length + 1) := by
            unfold addEvent
            split <;> simp <;> omega

theorem foldl_addEvent_all (accept : String → Bool) :
    ∀ (names l : List String), (∀ n ∈ names, accept n = true) →
      names.Nodup → (∀ n ∈ names, n ∉ l) →
      names.foldl (addEvent accept) l = l ++ names := by
  intro names
  induction names with
  | nil => simp
  | cons n ns ih =>
      intro l hacc hnd hdis
      have hn : accept n && !l.contains n := by
        simp [hacc n (List.mem_cons_self _ _),
              (by simpa using hdis n (List.mem_cons_self _ _) : n ∉ l)]
      simp only [List.foldl_cons, addEvent, if_pos hn]
      rw [ih (l ++ [n]) (fun m hm => hacc m (List.mem_cons_of_mem _ hm))
            (List.Nodup.of_cons hnd) ?_]
      · simp
      · intro m hm
        simp only [List.mem_append, List.mem_singleton, not_or]
        exact ⟨hdis m (List.mem_cons_of_mem _ hm),
               fun h => (List.nodup_cons.mp hnd).1 (h ▸ hm)⟩

theorem filter_foldl_erase (p : String → Bool) :
    ∀ (r l : List String),
      (r.foldl (fun acc e => acc.erase e) l).filter p
        = r.foldl (fun acc e => acc.erase e) (l.filter p) := by
  intro r
  induction r with
  | nil => simp
  | cons e es ih =>
      intro l
      simp only [List.foldl_cons]
      rw [ih, List.erase_filter]

theorem foldl_erase_self : ∀ l : List String,
    l.foldl (fun acc e => acc.erase e) l = [] := by
  intro l
  induction l with
  | nil => rfl
  | cons a t ih =>
      simp only [List.foldl_cons, List.erase_cons_head]
      calc t.foldl (fun acc e => acc.erase e) t = [] := ih

theorem filter_foldl_erase_self (p : String → Bool) (l : List String) :
    ((l.filter p).foldl (fun acc e => acc.erase e) l).filter p = [] := by
  rw [filter_foldl_erase, foldl_erase_self]

/-! ## Attach-loop and handle-array lemmas -/

theorem withIdx_map_snd (f : String → Int) :
    ∀ (i : Nat) (l : List String), (withIdx f i l).map Prod.snd = l.map f := by
  intro i l
  induction l generalizing i with
  | nil => rfl
  | cons a t ih => simp [withIdx, ih]

theorem withIdx_length (f : String → Int) :
    ∀ (i : Nat) (l : List String), (withIdx f i l).length = l.length := by
  intro i l
  induction l generalizing i with
  | nil => rfl
  | cons a t ih => simp [withIdx, ih]

theorem mem_withIdx_of_lt (f : String → Int) :
    ∀ (l : List String) (i k : Nat), k < l.length →
      (i + k, f (l.getD k "")) ∈ withIdx f i l := by
  intro l
  induction l with
  | nil => intro i k hk; simp at hk
  | cons a t ih =>
      intro i k hk
      cases k with
      | zero => simp [withIdx]
      | succ k =>
          have := ih (i + 1) k (by simpa using hk)
          simp only [withIdx, List.mem_cons]
          right
          have harith : i + 1 + k = i + (k + 1) := by omega
          simpa [harith] using this

theorem withIdx_fst_bound (f : String → Int) :
    ∀ (l : List String) (i : Nat), ∀ w ∈ withIdx f i l,
      i ≤ w.1 ∧ w.1 < i + l.length := by
  intro l
  induction l with
  | nil => intro i w hw; simp [withIdx] at hw
  | cons a t ih =>
      intro i w hw
      simp only [withIdx, List.mem_cons] at hw
      rcases hw with hw | hw
      · subst hw; simp
      · have := ih (i + 1) w hw
        constructor <;> [omega; (simp only [List.length_cons]; omega)]

theorem withIdx_fst_pairwise (f : String → Int) :
    ∀ (l : List String) (i : Nat),
      (withIdx f i l).Pairwise fun w w' => w.1 ≠ w'.1 := by
  intro l
  induction l with
  | nil => intro i; simp [withIdx]
  | cons a t ih =>
      intro i
      refine List.Pairwise.cons ?_ (ih (i + 1))
      intro w hw
      have := (withIdx_fst_bound f t (i + 1) w hw).1
      simp only []
      omega

theorem attachLoop_ok (attachFn : String → Int) :
    ∀ (l : List String) (i : Nat), (∀ e ∈ l, 0 ≤ attachFn e) →
      attachLoop attachFn l i = (withIdx attachFn i l, 0) := by
  intro l
  induction l with
  | nil => intro i _; rfl
  | cons a t ih =>
      intro i h
      have ha : ¬ attachFn a < 0 := not_lt.mpr (h a (List.mem_cons_self _ _))
      simp [attachLoop, ha, ih (i + 1) fun e he => h e (List.mem_cons_of_mem _ he),
            withIdx]

theorem attachLoop_fail (attachFn : String → Int) :
    ∀ (l : List String) (j i : Nat), j < l.length →
      attachFn (l.getD j "") < 0 →
      (∀ k, k < j → 0 ≤ attachFn (l.getD k "")) →
      attachLoop attachFn l i
        = (withIdx attachFn i (l.take (j + 1)), attachFn (l.getD j "")) := by
  intro l
  induction l with
  | nil => intro j i hj; simp at hj
  | cons a t ih =>
      intro j i hj hfail hpre
      cases j with
      | zero =>
          simp only [List.getD_cons_zero] at hfail
          simp [attachLoop, hfail, withIdx]
      | succ j =>
          have ha : 0 ≤ attachFn a := by
            have := hpre 0 (Nat.succ_pos _)
            simpa using this
          have ha' : ¬ attachFn a < 0 := not_lt.mpr ha
          have ht := ih j (i + 1) (by simpa using hj) (by simpa using hfail)
            fun k hk => by simpa using hpre (k + 1) (by omega)
          simp [attachLoop, ha', ht, withIdx]

theorem attachLoop_fst_bound (attachFn : String → Int) :
    ∀ (l : List String) (i : Nat), ∀ w ∈ (attachLoop attachFn l i).1,
      i ≤ w.1 ∧ w.1 < i + l.length := by
  intro l
  induction l with
  | nil => intro i w hw; simp [attachLoop] at hw
  | cons a t ih =>
      intro i w hw
      by_cases ha : attachFn a < 0
      · simp only [attachLoop, if_pos ha, List.mem_singleton] at hw
        subst hw; simp
      · simp only [attachLoop, if_neg ha, List.mem_cons] at hw
        rcases hw with hw | hw
        · subst hw; simp
        · have := ih (i + 1) w hw
          constructor <;> [omega; (simp only [List.length_cons]; omega)]

theorem setWrites_length (fds : List Int) (ws : List (Nat × Int)) :
    (setWrites fds ws).length = fds.length := by
  induction ws generalizing fds with
  | nil => rfl
  | cons w ws ih => simp [setWrites, List.foldl_cons] at ih ⊢; rw [ih, List.length_set]

theorem setWrites_get?_of_not_mem (fds : List Int) (ws : List (Nat × Int)) (k : Nat)
    (h : ∀ w ∈ ws, w.1 ≠ k) :
    (setWrites fds ws).get? k = fds.get? k := by
  induction ws generalizing fds with
  | nil => rfl
  | cons w ws ih =>
      show (setWrites (fds.set w.1 w.2) ws).get? k = fds.get? k
      rw [ih _ fun w' hw' => h w' (List.mem_cons_of_mem _ hw'),
          List.get?_set_ne _ _ (h w (List.mem_cons_self _ _))]

theorem setWrites_get?_mem (fds : List Int) (ws : List (Nat × Int))
    (hpw : ws.Pairwise fun w w' => w.1 ≠ w'.1) :
    ∀ w ∈ ws, w.1 < fds.length → (setWrites fds ws).get? w.1 = some w.2 := by
  induction ws generalizing fds with
  | nil => intro w hw; simp at hw
  | cons v ws ih =>
      intro w hw hlt
      rcases List.mem_cons.mp hw with hw | hw
      · subst hw
        show (setWrites (fds.set w.1 w.2) ws).get? w.1 = some w.2
        rw [setWrites_get?_of_not_mem _ _ _
            fun w' hw' => ((List.pairwise_cons.mp hpw).1 w' hw').symm,
          List.get?_set_eq_of_lt _ (by simpa using hlt)]
      · exact ih (fds.set v.1 v.2) (List.pairwise_cons.mp hpw).2 w hw
          (by simpa using hlt)

theorem setWrites_mem (fds : List Int) (ws : List (Nat × Int))
    (hpw : ws.Pairwise fun w w' => w.1 ≠ w'.1) :
    ∀ w ∈ ws, w.1 < fds.length → w.2 ∈ setWrites fds ws := by
  intro w hw hlt
  exact List.get?_mem (setWrites_get?_mem fds ws hpw w hw hlt)

/-! ## Channel-level effect lemmas (healthy-I/O oracle) -/

theorem doFflush_flushAll (accept : String → Bool) (s : Sys) :
    doFflush accept flushAll s
      = (true, { s with flushCount := s.flushCount + 1,
                        events := effEvents accept s,
                        chan := { s.chan with buf := [] } }) := rfl

theorem doFclose_flushAll (accept : String → Bool) (s : Sys) :
    doFclose accept flushAll s
      = { s with flushCount := s.flushCount + 1,
                 events := effEvents accept s,
                 chan := { buf := [], closeCount := s.chan.closeCount + 1,
                           written := s.chan.written } } := rfl

theorem effEvents_chanWrite (accept : String → Bool) (s : Sys) (d : Directive) :
    effEvents accept (chanWrite s d) = applyDirective accept (effEvents accept s) d := by
  simp [effEvents, chanWrite, List.foldl_append]

theorem effEvents_of_buf_nil (accept : String → Bool) {s : Sys}
    (h : s.chan.buf = []) : effEvents accept s = s.events := by
  simp [effEvents, h]

theorem deleteLoop_flushAll (accept : String → Bool) :
    ∀ (evs : List String) (s : Sys) (pend : Nat),
      (deleteLoop accept flushAll s evs pend).2 = 0
      ∧ effEvents accept (deleteLoop accept flushAll s evs pend).1
          = evs.foldl (fun acc e => acc.erase e) (effEvents accept s)
      ∧ (deleteLoop accept flushAll s evs pend).1.chan.written
          = s.chan.written ++ evs.map Directive.delete
      ∧ (deleteLoop accept flushAll s evs pend).1.flushCount
          = s.flushCount + chunkFlushes (evs.map fun e => 2 + e.length + 1) pend
      ∧ (deleteLoop accept flushAll s evs pend).1.chan.closeCount = s.chan.closeCount
      ∧ (deleteLoop accept flushAll s evs pend).1.xp = s.xp
      ∧ (deleteLoop accept flushAll s evs pend).1.warns = s.warns
      ∧ (deleteLoop accept flushAll s evs pend).1.closedFds = s.closedFds
      ∧ (deleteLoop accept flushAll s evs pend).1.attachedFds = s.attachedFds
      ∧ (deleteLoop accept flushAll s evs pend).1.group = s.group
      ∧ (deleteLoop accept flushAll s evs pend).1.pid = s.pid
      ∧ (deleteLoop accept flushAll s evs pend).1.ksyms = s.ksyms := by
  intro evs
  induction evs with
  | nil =>
      intro s pend
      simp [deleteLoop, chunkFlushes]
  | cons e evs ih =>
      intro s pend
      by_cases hth : pend + (2 + e.length + 1) > 0x1000 - 0x200
      · have hstep : deleteLoop accept flushAll s (e :: evs) pend
            = deleteLoop accept flushAll
                (doFflush accept flushAll (chanWrite s (.delete e))).2 evs 0 := by
          simp [deleteLoop, __xprobe_delete, hth, doFflush_flushAll]
        have hch : chunkFlushes ((e :: evs).map fun e => 2 + e.length + 1) pend
            = 1 + chunkFlushes (evs.map fun e => 2 + e.length + 1) 0 := by
          simp only [List.map_cons, chunkFlushes]
          rw [if_pos hth]
        obtain ⟨h1, h2, h3, h4, h5, h6, h7, h8, h9, h10, h11, h12⟩ :=
          ih (doFflush accept flushAll (chanWrite s (.delete e))).2 0
        rw [hstep]
        refine ⟨h1, ?_, ?_, ?_, ?_, ?_, ?_, ?_, ?_, ?_, ?_, ?_⟩
        · rw [h2, doFflush_flushAll]
          simp only [List.foldl_cons]
          congr 1
          rw [effEvents_of_buf_nil accept rfl]
          show effEvents accept (chanWrite s (.delete e)) = _
          rw [effEvents_chanWrite]
          rfl
        · rw [h3, doFflush_flushAll]
          simp [chanWrite]
        · rw [h4, doFflush_flushAll, hch]
          simp [chanWrite]
          omega
        · rw [h5, doFflush_flushAll]; simp [chanWrite]
        · rw [h6, doFflush_flushAll]; simp [chanWrite]
        · rw [h7, doFflush_flushAll]; simp [chanWrite]
        · rw [h8, doFflush_flushAll]; simp [chanWrite]
        · rw [h9, doFflush_flushAll]; simp [chanWrite]
        · rw [h10, doFflush_flushAll]; simp [chanWrite]
        · rw [h11, doFflush_flushAll]; simp [chanWrite]
        · rw [h12, doFflush_flushAll]; simp [chanWrite]
      · have hstep : deleteLoop accept flushAll s (e :: evs) pend
            = deleteLoop accept flushAll (chanWrite s (.delete e)) evs
                (pend + (2 + e.length + 1)) := by
          simp [deleteLoop, __xprobe_delete, hth]
        have hch : chunkFlushes ((e :: evs).map fun e => 2 + e.length + 1) pend
            = chunkFlushes (evs.map fun e => 2 + e.length + 1)
                (pend + (2 + e.length + 1)) := by
          simp only [List.map_cons, chunkFlushes]
          rw [if_neg hth]
        obtain ⟨h1, h2, h3, h4, h5, h6, h7, h8, h9, h10, h11, h12⟩ :=
          ih (chanWrite s (.delete e)) (pend + (2 + e.length + 1))
        rw [hstep]
        refine ⟨h1, ?_, ?_, ?_, ?_, ?_, ?_, ?_, ?_, ?_, ?_, ?_⟩
        · rw [h2, effEvents_chanWrite]
          simp only [List.foldl_cons]
          rfl
        · rw [h3]; simp [chanWrite]
        · rw [h4, hch]; simp [chanWrite]
        · rw [h5]; simp [chanWrite]
        · rw [h6]; simp [chanWrite]
        · rw [h7]; simp [chanWrite]
        · rw [h8]; simp [chanWrite]
        · rw [h9]; simp [chanWrite]
        · rw [h10]; simp [chanWrite]
        · rw [h11]; simp [chanWrite]
        · rw [h12]; simp [chanWrite]

theorem xprobe_glob_pos (s : Sys)
    (hne : s.events.filter (fun ev =>
      (globPfx s.group s.pid).data.isPrefixOf ev.data) ≠ []) :
    xprobe_glob s
      = (0, s.events.filter fun ev =>
             (globPfx s.group s.pid).data.isPrefixOf ev.data) := by
  unfold xprobe_glob
  rw [if_neg (by simpa using hne)]

theorem xprobe_glob_nil (s : Sys)
    (he : s.events.filter (fun ev =>
      (globPfx s.group s.pid).data.isPrefixOf ev.data) = []) :
    xprobe_glob s = (-22, []) := by
  unfold xprobe_glob
  rw [if_pos (by simpa using he)]

theorem delete_all_flushAll (accept : String → Bool) (s : Sys)
    (hne : s.events.filter (fun ev =>
      (globPfx s.group s.pid).data.isPrefixOf ev.data) ≠ []) :
    (__xprobe_delete_all accept flushAll s).1 = 0
    ∧ effEvents accept (__xprobe_delete_all accept flushAll s).2
        = (s.events.filter fun ev =>
            (globPfx s.group s.pid).data.isPrefixOf ev.data).foldl
            (fun acc e => acc.erase e) (effEvents accept s)
    ∧ (__xprobe_delete_all accept flushAll s).2.chan.written
        = s.chan.written ++ (s.events.filter fun ev =>
            (globPfx s.group s.pid).data.isPrefixOf ev.data).map Directive.delete
    ∧ (__xprobe_delete_all accept flushAll s).2.flushCount
        = s.flushCount + chunkFlushes ((s.events.filter fun ev =>
            (globPfx s.group s.pid).data.isPrefixOf ev.data).map
            fun e => 2 + e.length + 1) 0
    ∧ (__xprobe_delete_all accept flushAll s).2.chan.closeCount = s.chan.closeCount
    ∧ (__xprobe_delete_all accept flushAll s).2.xp = s.xp
    ∧ (__xprobe_delete_all accept flushAll s).2.warns
        = s.warns + (if (s.events.filter fun ev =>
            (globPfx s.group s.pid).data.isPrefixOf ev.data).length ≠ s.xp.n_evs
          then 1 else 0)
    ∧ (__xprobe_delete_all accept flushAll s).2.closedFds = s.closedFds
    ∧ (__xprobe_delete_all accept flushAll s).2.attachedFds = s.attachedFds
    ∧ (__xprobe_delete_all accept flushAll s).2.group = s.group
    ∧ (__xprobe_delete_all accept flushAll s).2.pid = s.pid
    ∧ (__xprobe_delete_all accept flushAll s).2.ksyms = s.ksyms := by
  set gl := s.events.filter fun ev =>
      (globPfx s.group s.pid).data.isPrefixOf ev.data with hgl
  have hglob := xprobe_glob_pos s hne
  by_cases hw : gl.length ≠ s.xp.n_evs
  · have hstep : __xprobe_delete_all accept flushAll s
        = ((deleteLoop accept flushAll { s with warns := s.warns + 1 } gl 0).2,
           (deleteLoop accept flushAll { s with warns := s.warns + 1 } gl 0).1) := by
      unfold __xprobe_delete_all
      rw [hglob]
      simp [hw, ← hgl]
    obtain ⟨h1, h2, h3, h4, h5, h6, h7, h8, h9, h10, h11, h12⟩ :=
      deleteLoop_flushAll accept gl { s with warns := s.warns + 1 } 0
    rw [hstep]
    exact ⟨h1, by simpa [effEvents] using h2, by simpa using h3, by simpa using h4,
           by simpa using h5, by simpa using h6, by simp [h7, hw],
           by simpa using h8, by simpa using h9, by simpa using h10,
           by simpa using h11, by simpa using h12⟩
  · have hstep : __xprobe_delete_all accept flushAll s
        = ((deleteLoop accept flushAll s gl 0).2,
           (deleteLoop accept flushAll s gl 0).1) := by
      unfold __xprobe_delete_all
      rw [hglob]
      simp [hw, ← hgl]
    obtain ⟨h1, h2, h3, h4, h5, h6, h7, h8, h9, h10, h11, h12⟩ :=
      deleteLoop_flushAll accept gl s 0
    rw [hstep]
    exact ⟨h1, h2, h3, h4, h5, h6, by simp [h7, hw], h8, h9, h10, h11, h12⟩

theorem xdetach_effect (s : Sys) :
    __xprobe_detach s
      = (0, { s with closedFds := s.closedFds ++ s.xp.evfds.getD [],
                     nullDeref := s.nullDeref
                       || (s.xp.evfds.isNone && decide (0 < s.xp.n_evs)),
                     xp := { s.xp with evfds := none } }) := by
  cases h : s.xp.evfds with
  | some fds => simp [__xprobe_detach, h]
  | none =>
      by_cases hn : 0 < s.xp.n_evs <;> simp [__xprobe_detach, h, hn]

theorem detach_flushAll (accept : String → Bool) (s : Sys)
    (hctrl : s.xp.ctrl = true) (hbuf : s.chan.buf = [])
    (hne : s.events.filter (fun ev =>
      (globPfx s.group s.pid).data.isPrefixOf ev.data) ≠ []) :
    (xprobe_detach accept flushAll s).1 = 0
    ∧ (xprobe_detach accept flushAll s).2.events
        = (s.events.filter fun ev =>
            (globPfx s.group s.pid).data.isPrefixOf ev.data).foldl
            (fun acc e => acc.erase e) s.events
    ∧ (xprobe_detach accept flushAll s).2.events.filter (fun ev =>
        (globPfx s.group s.pid).data.isPrefixOf ev.data) = []
    ∧ (xprobe_detach accept flushAll s).2.chan.closeCount = s.chan.closeCount + 1
    ∧ (xprobe_detach accept flushAll s).2.xp.evfds = none
    ∧ (xprobe_detach accept flushAll s).2.closedFds
        = s.closedFds ++ s.xp.evfds.getD []
    ∧ (xprobe_detach accept flushAll s).2.warns
        = s.warns + (if (s.events.filter fun ev =>
            (globPfx s.group s.pid).data.isPrefixOf ev.data).length ≠ s.xp.n_evs
          then 1 else 0) := by
  have hd := xdetach_effect s
  set s1 : Sys := { s with closedFds := s.closedFds ++ s.xp.evfds.getD [],
                           nullDeref := s.nullDeref
                             || (s.xp.evfds.isNone && decide (0 < s.xp.n_evs)),
                           xp := { s.xp with evfds := none } } with hs1
  have hne1 : s1.events.filter (fun ev =>
      (globPfx s1.group s1.pid).data.isPrefixOf ev.data) ≠ [] := hne
  obtain ⟨g1, g2, g3, g4, g5, g6, g7, g8, g9, g10, g11, g12⟩ :=
    delete_all_flushAll accept s1 hne1
  set s2 : Sys := (__xprobe_delete_all accept flushAll s1).2 with hs2
  have hstep : xprobe_detach accept flushAll s
      = (0, doFclose accept flushAll (doFflush accept flushAll s2).2) := by
    unfold xprobe_detach
    rw [hd]
    simp only [hctrl, Bool.not_true, Bool.false_eq_true, if_false, ne_eq,
               not_true_eq_false, not_false_eq_true, if_true]
    rw [g1]
    simp [doFflush_flushAll]
  have hev2 : effEvents accept s2
      = (s.events.filter fun ev =>
          (globPfx s.group s.pid).data.isPrefixOf ev.data).foldl
          (fun acc e => acc.erase e) s.events := by
    rw [g2, effEvents_of_buf_nil accept (show s1.chan.buf = [] from hbuf)]
  rw [hstep]
  refine ⟨rfl, ?_, ?_, ?_, ?_, ?_, ?_⟩
  · rw [doFflush_flushAll, doFclose_flushAll]
    simp only []
    rw [effEvents_of_buf_nil accept rfl]
    exact hev2
  · rw [doFflush_flushAll, doFclose_flushAll]
    simp only []
    rw [effEvents_of_buf_nil accept rfl, hev2, filter_foldl_erase_self]
  · rw [doFflush_flushAll, doFclose_flushAll]
    simp only []
    rw [g5]
  · rw [doFflush_flushAll, doFclose_flushAll]
    simp only []
    rw [g6]
  · rw [doFflush_flushAll, doFclose_flushAll]
    simp only []
    rw [g8]
  · rw [doFflush_flushAll, doFclose_flushAll]
    simp only []
    rw [g7]

theorem attachErrClose_clean (accept : String → Bool) (err : Int) (s : Sys)
    (hbuf : s.chan.buf = [])
    (hne : s.events.filter (fun ev =>
      (globPfx s.group s.pid).data.isPrefixOf ev.data) ≠ []) :
    (attachErrClose accept flushAll err s).1 = err
    ∧ (attachErrClose accept flushAll err s).2.events.filter (fun ev =>
        (globPfx s.group s.pid).data.isPrefixOf ev.data) = []
    ∧ (attachErrClose accept flushAll err s).2.chan.closeCount
        = s.chan.closeCount + 1
    ∧ (attachErrClose accept flushAll err s).2.xp = s.xp
    ∧ (attachErrClose accept flushAll err s).2.closedFds = s.closedFds
    ∧ (attachErrClose accept flushAll err s).2.attachedFds = s.attachedFds := by
  obtain ⟨g1, g2, g3, g4, g5, g6, g7, g8, g9, g10, g11, g12⟩ :=
    delete_all_flushAll accept s hne
  have hstep : attachErrClose accept flushAll err s
      = (err, doFclose accept flushAll (__xprobe_delete_all accept flushAll s).2) := rfl
  rw [hstep]
  refine ⟨rfl, ?_, ?_, ?_, ?_, ?_⟩
  · rw [doFclose_flushAll]
    simp only []
    rw [g2, effEvents_of_buf_nil accept hbuf, filter_foldl_erase_self]
  · rw [doFclose_flushAll]
    simp only []
    rw [g5]
  · rw [doFclose_flushAll]
    simp only []
    rw [g6]
  · rw [doFclose_flushAll]
    simp only []
    rw [g8]
  · rw [doFclose_flushAll]
    simp only []
    rw [g9]

/-! ## Create-phase effect lemmas (healthy-I/O oracle) -/

theorem createPatternLoop_flushAll (fnm : String → String → Bool)
    (accept : String → Bool) :
    ∀ (syms : List String) (s : Sys), s.chan.buf = [] →
      (createPatternLoop fnm accept flushAll s syms).events
        = ((syms.filter (fnm s.xp.pattern)).map fun sym =>
            stemLocal s.xp.stem ++ sanitize sym).foldl (addEvent accept) s.events
      ∧ (createPatternLoop fnm accept flushAll s syms).chan.buf = []
      ∧ (createPatternLoop fnm accept flushAll s syms).chan.written
          = s.chan.written ++ ((syms.filter (fnm s.xp.pattern)).map
              fun sym => Directive.create s.xp.stem (sanitize sym) sym)
      ∧ (createPatternLoop fnm accept flushAll s syms).xp.n_evs
          = s.xp.n_evs + (syms.filter (fnm s.xp.pattern)).length
      ∧ (createPatternLoop fnm accept flushAll s syms).xp.ctrl = s.xp.ctrl
      ∧ (createPatternLoop fnm accept flushAll s syms).xp.typ = s.xp.typ
      ∧ (createPatternLoop fnm accept flushAll s syms).xp.pattern = s.xp.pattern
      ∧ (createPatternLoop fnm accept flushAll s syms).xp.stem = s.xp.stem
      ∧ (createPatternLoop fnm accept flushAll s syms).xp.evfds = s.xp.evfds
      ∧ (createPatternLoop fnm accept flushAll s syms).chan.closeCount
          = s.chan.closeCount
      ∧ (createPatternLoop fnm accept flushAll s syms).warns = s.warns
      ∧ (createPatternLoop fnm accept flushAll s syms).closedFds = s.closedFds
      ∧ (createPatternLoop fnm accept flushAll s syms).attachedFds = s.attachedFds
      ∧ (createPatternLoop fnm accept flushAll s syms).group = s.group
      ∧ (createPatternLoop fnm accept flushAll s syms).pid = s.pid
      ∧ (createPatternLoop fnm accept flushAll s syms).ksyms = s.ksyms := by
  intro syms
  induction syms with
  | nil =>
      intro s hbuf
      simp [createPatternLoop, hbuf]
  | cons sym syms ih =>
      intro s hbuf
      by_cases hm : fnm s.xp.pattern sym
      · have hstep : createPatternLoop fnm accept flushAll s (sym :: syms)
            = createPatternLoop fnm accept flushAll
                { s with
                  flushCount := s.flushCount + 1,
                  events := addEvent accept s.events
                              (stemLocal s.xp.stem ++ sanitize sym),
                  chan := { buf := [], closeCount := s.chan.closeCount,
                            written := s.chan.written
                              ++ [Directive.create s.xp.stem (sanitize sym) sym] },
                  xp := { s.xp with n_evs := s.xp.n_evs + 1 } } syms := by
          simp only [createPatternLoop, if_pos hm, __xprobe_create,
                     doFflush_flushAll]
          congr 1
          simp [chanWrite, effEvents, hbuf, applyDirective]
        rw [hstep]
        obtain ⟨h1, h2, h3, h4, h5, h6, h7, h8, h9, h10, h11, h12, h13, h14,
                h15, h16⟩ := ih
          { s with
            flushCount := s.flushCount + 1,
            events := addEvent accept s.events
                        (stemLocal s.xp.stem ++ sanitize sym),
            chan := { buf := [], closeCount := s.chan.closeCount,
                      written := s.chan.written
                        ++ [Directive.create s.xp.stem (sanitize sym) sym] },
            xp := { s.xp with n_evs := s.xp.n_evs + 1 } } rfl
        refine ⟨?_, h2, ?_, ?_, h5, h6, h7, h8, h9, h10, h11, h12, h13, h14,
                h15, h16⟩
        · rw [h1]
          simp [hm]
        · rw [h3]
          simp [hm]
        · rw [h4]
          simp [hm]
          omega
      · have hstep : createPatternLoop fnm accept flushAll s (sym :: syms)
            = createPatternLoop fnm accept flushAll s syms := by
          simp only [createPatternLoop, if_neg hm]
        rw [hstep]
        obtain ⟨h1, h2, h3, h4, h5, h6, h7, h8, h9, h10, h11, h12, h13, h14,
                h15, h16⟩ := ih s hbuf
        exact ⟨by rw [h1]; simp [hm], h2, by rw [h3]; simp [hm],
               by rw [h4]; simp [hm], h5, h6, h7, h8, h9, h10, h11, h12, h13,
               h14, h15, h16⟩

theorem create_flushAll (fnm : String → String → Bool) (accept : String → Bool)
    (s : Sys) (hbuf : s.chan.buf = []) :
    (xprobe_create fnm accept flushAll s).1 = 0
    ∧ (xprobe_create fnm accept flushAll s).2.events
        = ((createDirectives fnm s).map evnameOf).foldl (addEvent accept) s.events
    ∧ (xprobe_create fnm accept flushAll s).2.chan.buf = []
    ∧ (xprobe_create fnm accept flushAll s).2.chan.written
        = s.chan.written ++ createDirectives fnm s
    ∧ (xprobe_create fnm accept flushAll s).2.xp.n_evs
        = s.xp.n_evs + (createDirectives fnm s).length
    ∧ (xprobe_create fnm accept flushAll s).2.xp.stem
        = mkStem s.xp.typ s.group s.pid
    ∧ (xprobe_create fnm accept flushAll s).2.xp.ctrl = s.xp.ctrl
    ∧ (xprobe_create fnm accept flushAll s).2.xp.typ = s.xp.typ
    ∧ (xprobe_create fnm accept flushAll s).2.xp.pattern = s.xp.pattern
    ∧ (xprobe_create fnm accept flushAll s).2.xp.evfds = s.xp.evfds
    ∧ (xprobe_create fnm accept flushAll s).2.chan.closeCount = s.chan.closeCount
    ∧ (xprobe_create fnm accept flushAll s).2.warns = s.warns
    ∧ (xprobe_create fnm accept flushAll s).2.closedFds = s.closedFds
    ∧ (xprobe_create fnm accept flushAll s).2.attachedFds = s.attachedFds
    ∧ (xprobe_create fnm accept flushAll s).2.group = s.group
    ∧ (xprobe_create fnm accept flushAll s).2.pid = s.pid
    ∧ (xprobe_create fnm accept flushAll s).2.ksyms = s.ksyms := by
  by_cases hb : (hasMeta s.xp.pattern && s.ksyms.isSome) = true
  · obtain ⟨syms, hsyms⟩ := Option.isSome_iff_exists.mp (Bool.and_elim_right hb)
    set sSt : Sys :=
      { s with xp := { s.xp with stem := mkStem s.xp.typ s.group s.pid } } with hsSt
    obtain ⟨h1, h2, h3, h4, h5, h6, h7, h8, h9, h10, h11, h12, h13, h14,
            h15, h16⟩ := createPatternLoop_flushAll fnm accept syms sSt hbuf
    set sL : Sys := createPatternLoop fnm accept flushAll sSt syms with hsL
    have hdirs : createDirectives fnm s
        = (syms.filter (fnm sSt.xp.pattern)).map
            (fun sym => Directive.create sSt.xp.stem (sanitize sym) sym) := by
      unfold createDirectives
      rw [if_pos hb, hsyms]
      rfl
    have hloopstep : xprobe_create fnm accept flushAll s
        = (0, { sL with flushCount := sL.flushCount + 1,
                        events := effEvents accept sL,
                        chan := { sL.chan with buf := [] } }) := by
      unfold xprobe_create
      simp only [← hsSt, hb, if_true, xprobe_create_pattern]
      have hk : sSt.ksyms = some syms := hsyms
      rw [hk]
      simp [doFflush_flushAll, ← hsL]
    rw [hloopstep]
    refine ⟨rfl, ?_, rfl, ?_, ?_, ?_, ?_, ?_, ?_, ?_, ?_, ?_, ?_, ?_, ?_, ?_, ?_⟩
    · show effEvents accept sL = _
      rw [effEvents_of_buf_nil accept h2, h1, hdirs, List.map_map]
      rfl
    · show sL.chan.written = _
      rw [h3, hdirs]
    · show sL.xp.n_evs = _
      rw [h4, hdirs, List.length_map]
    · exact h8
    · exact h5
    · exact h6
    · exact h7
    · exact h9
    · exact h10
    · exact h11
    · exact h12
    · exact h13
    · exact h14
    · exact h15
    · exact h16
  · set d : Directive :=
      Directive.create (mkStem s.xp.typ s.group s.pid)
        (sanitize s.xp.pattern) s.xp.pattern with hd
    have hdirs : createDirectives fnm s = [d] := by
      unfold createDirectives
      rw [if_neg hb]
    have hstep : xprobe_create fnm accept flushAll s
        = (0, { s with
                flushCount := s.flushCount + 1,
                events := List.foldl (applyDirective accept) s.events
                            (s.chan.buf ++ [d]),
                chan := { buf := [], closeCount := s.chan.closeCount,
                          written := s.chan.written ++ [d] },
                xp := { s.xp with
                        stem := mkStem s.xp.typ s.group s.pid,
                        n_evs := s.xp.n_evs + 1 } }) := by
      unfold xprobe_create
      simp only [hb, if_false, __xprobe_create, chanWrite]
      simp [doFflush_flushAll, effEvents]
    rw [hstep]
    refine ⟨rfl, ?_, rfl, ?_, ?_, rfl, rfl, rfl, rfl, rfl, rfl, rfl, rfl, rfl,
            rfl, rfl, rfl⟩
    · show List.foldl (applyDirective accept) s.events (s.chan.buf ++ [d]) = _
      rw [hbuf, hdirs]
      rfl
    · show s.chan.written ++ [d] = _
      rw [hdirs]
    · show s.xp.n_evs + 1 = _
      rw [hdirs]
      rfl

/-! ## Attach-phase effect lemmas -/

theorem xattach_effect (attachFn : String → Int) (s : Sys)
    (hne : s.events.filter (fun ev =>
      (globPfx s.group s.pid).data.isPrefixOf ev.data) ≠ []) :
    __xprobe_attach attachFn s
      = ((attachLoop attachFn (s.events.filter fun ev =>
            (globPfx s.group s.pid).data.isPrefixOf ev.data) 0).2,
         { s with
           warns := s.warns + (if (s.events.filter fun ev =>
               (globPfx s.group s.pid).data.isPrefixOf ev.data).length
               ≠ s.xp.n_evs then 1 else 0),
           xp := { s.xp with
                   evfds := some (setWrites (s.xp.evfds.getD [])
                     (attachLoop attachFn (s.events.filter fun ev =>
                       (globPfx s.group s.pid).data.isPrefixOf ev.data) 0).1) },
           attachedFds := s.attachedFds
             ++ ((attachLoop attachFn (s.events.filter fun ev =>
                   (globPfx s.group s.pid).data.isPrefixOf ev.data) 0).1).map
                 Prod.snd }) := by
  unfold __xprobe_attach
  rw [xprobe_glob_pos s hne]
  by_cases hw : (s.events.filter fun ev =>
      (globPfx s.group s.pid).data.isPrefixOf ev.data).length ≠ s.xp.n_evs
  · simp [hw]
  · simp [hw]

theorem createDirectives_pfx (fnm : String → String → Bool) (s : Sys) :
    ∀ d ∈ createDirectives fnm s,
      (globPfx s.group s.pid).data.isPrefixOf (evnameOf d).data = true := by
  intro d hd
  unfold createDirectives at hd
  by_cases hb : (hasMeta s.xp.pattern && s.ksyms.isSome) = true
  · rw [if_pos hb] at hd
    obtain ⟨sym, _, hsym⟩ := List.mem_map.mp hd
    subst hsym
    show (globPfx s.group s.pid).data.isPrefixOf
      (stemLocal (mkStem s.xp.typ s.group s.pid) ++ sanitize sym).data = true
    rw [stemLocal_mkStem, String.data_append, List.isPrefixOf_iff_prefix]
    exact List.prefix_append _ _
  · rw [if_neg hb] at hd
    rcases List.mem_singleton.mp hd with rfl
    show (globPfx s.group s.pid).data.isPrefixOf
      (stemLocal (mkStem s.xp.typ s.group s.pid) ++ sanitize s.xp.pattern).data
      = true
    rw [stemLocal_mkStem, String.data_append, List.isPrefixOf_iff_prefix]
    exact List.prefix_append _ _

theorem discovered_shape (fnm : String → String → Bool) (accept : String → Bool)
    (s : Sys)
    (hclean : s.events.filter (fun ev =>
      (globPfx s.group s.pid).data.isPrefixOf ev.data) = []) :
    ∃ new, (afterCreate fnm accept s).events = s.events ++ new
      ∧ attachDiscovered fnm accept s = new
      ∧ new.length ≤ (createDirectives fnm (openedSys s)).length := by
  obtain ⟨c1, c2, c3, c4, c5, c6, c7, c8, c9, c10, c11, c12, c13, c14, c15,
          c16, c17⟩ := create_flushAll fnm accept (openedSys s) rfl
  set names : List String := (createDirectives fnm (openedSys s)).map evnameOf
    with hnames
  obtain ⟨new, hsplit, hmem⟩ := foldl_addEvent_shape accept names s.events
  have heq : (afterCreate fnm accept s).events = s.events ++ new := by
    show (xprobe_create fnm accept flushAll (openedSys s)).2.events = _
    rw [c2]
    exact hsplit
  refine ⟨new, heq, ?_, ?_⟩
  · unfold attachDiscovered
    rw [heq, List.filter_append, hclean, List.nil_append, List.filter_eq_self.mpr]
    intro e he
    obtain ⟨d, hd, hde⟩ := List.mem_map.mp (hmem e he)
    have := createDirectives_pfx fnm (openedSys s) d hd
    rw [hde] at this
    exact this
  · have hlen := foldl_addEvent_length accept names s.events
    rw [hsplit, List.length_append] at hlen
    have : new.length ≤ names.length := by omega
    simpa [hnames] using this


/-! ## Claim theorems -/

/-- C1: if the attach primitive fails on any discovered event during
attach (first failure at index `j`), then before the error is returned
every handle attached so far has been passed to `close`, every created
event definition (attached or not) has been deleted from the event
directory, the control channel has been closed, and the value returned is
the original attach-primitive error — the caller never observes a
partially attached ProbeSet. -/
theorem xprobe_attach_rollback (fnm : String → String → Bool)
    (accept : String → Bool) (attachFn : String → Int) (s : Sys) (j : Nat)
    (hclean : s.events.filter (fun ev =>
      (globPfx s.group s.pid).data.isPrefixOf ev.data) = [])
    (hj : j < (attachDiscovered fnm accept s).length)
    (hfail : attachFn ((attachDiscovered fnm accept s).getD j "") < 0)
    (hpre : ∀ k, k < j →
      0 ≤ attachFn ((attachDiscovered fnm accept s).getD k "")) :
    (xprobe_attach fnm accept flushAll attachFn true true s).1
      = attachFn ((attachDiscovered fnm accept s).getD j "")
    ∧ (xprobe_attach fnm accept flushAll attachFn true true s).2.events.filter
        (fun ev => (globPfx s.group s.pid).data.isPrefixOf ev.data) = []
    ∧ (xprobe_attach fnm accept flushAll attachFn true true s).2.chan.closeCount = 1
    ∧ (xprobe_attach fnm accept flushAll attachFn true true s).2.xp.evfds = none
    ∧ ∀ k, k < j →
        attachFn ((attachDiscovered fnm accept s).getD k "")
          ∈ (xprobe_attach fnm accept flushAll attachFn true true s).2.closedFds := by
  obtain ⟨c1, c2, c3, c4, c5, c6, c7, c8, c9, c10, c11, c12, c13, c14, c15,
          c16, c17⟩ := create_flushAll fnm accept (openedSys s) rfl
  obtain ⟨new, hsplit, hdisc, hlen⟩ := discovered_shape fnm accept s hclean
  set gl : List String := attachDiscovered fnm accept s with hgl
  set sC : Sys := afterCreate fnm accept s with hsC
  set n : Nat := sC.xp.n_evs with hn
  set sA : Sys := { sC with xp := { sC.xp with evfds := some (List.replicate n 0) } }
    with hsA
  have hgroup : sC.group = s.group := c15
  have hpid : sC.pid = s.pid := c16
  have hfirst : xprobe_attach fnm accept flushAll attachFn true true s
      = (if (__xprobe_attach attachFn sA).1 ≠ 0 then
           attachErrClose accept flushAll (__xprobe_attach attachFn sA).1
             (__xprobe_detach (__xprobe_attach attachFn sA).2).2
         else (0, (__xprobe_attach attachFn sA).2)) := by
    have hc1 : (xprobe_create fnm accept flushAll
        { s with xp := { s.xp with ctrl := true },
                 chan := { buf := [], closeCount := 0, written := [] } }).1 = 0 := c1
    unfold xprobe_attach
    simp only [Bool.not_true, Bool.false_eq_true, if_false, hc1, ne_eq,
               not_true_eq_false, not_false_eq_true, ite_true, ite_false]
    rfl
  have hAfilter : sA.events.filter (fun ev =>
      (globPfx sA.group sA.pid).data.isPrefixOf ev.data) = gl := by
    show sC.events.filter (fun ev =>
      (globPfx sC.group sC.pid).data.isPrefixOf ev.data) = gl
    rw [hgroup, hpid]
    rw [hgl]
    rfl
  have hne : gl ≠ [] := List.ne_nil_of_length_pos (Nat.lt_of_le_of_lt (Nat.zero_le _) hj)
  have hneA : sA.events.filter (fun ev =>
      (globPfx sA.group sA.pid).data.isPrefixOf ev.data) ≠ [] := by
    rw [hAfilter]; exact hne
  have hXA := xattach_effect attachFn sA hneA
  rw [hAfilter] at hXA
  have hloop := attachLoop_fail attachFn gl j 0 hj hfail hpre
  rw [hloop] at hXA
  set err : Int := attachFn (gl.getD j "") with herr
  have herrne : err ≠ 0 := ne_of_lt hfail
  set ws : List (Nat × Int) := withIdx attachFn 0 (gl.take (j + 1)) with hws
  set S2 : Sys := { sA with
      warns := sA.warns + (if gl.length ≠ sA.xp.n_evs then 1 else 0),
      xp := { sA.xp with evfds := some (setWrites (sA.xp.evfds.getD []) ws) },
      attachedFds := sA.attachedFds ++ ws.map Prod.snd } with hS2
  have hXA' : __xprobe_attach attachFn sA = (err, S2) := hXA
  have hsecond : xprobe_attach fnm accept flushAll attachFn true true s
      = attachErrClose accept flushAll err (__xprobe_detach S2).2 := by
    rw [hfirst, hXA']
    simp [herrne]
  have hdet := xdetach_effect S2
  set s5 : Sys := { S2 with closedFds := S2.closedFds ++ S2.xp.evfds.getD [],
                            nullDeref := S2.nullDeref
                              || (S2.xp.evfds.isNone && decide (0 < S2.xp.n_evs)),
                            xp := { S2.xp with evfds := none } } with hs5
  have hthird : xprobe_attach fnm accept flushAll attachFn true true s
      = attachErrClose accept flushAll err s5 := by
    rw [hsecond, hdet]
  have hbuf5 : s5.chan.buf = [] := c3
  have hne5 : s5.events.filter (fun ev =>
      (globPfx s5.group s5.pid).data.isPrefixOf ev.data) ≠ [] := by
    show sA.events.filter (fun ev =>
      (globPfx sA.group sA.pid).data.isPrefixOf ev.data) ≠ []
    exact hneA
  obtain ⟨e1, e2, e3, e4, e5, e6⟩ := attachErrClose_clean accept err s5 hbuf5 hne5
  have hg5 : s5.group = s.group := hgroup
  have hp5 : s5.pid = s.pid := hpid
  rw [hg5, hp5] at e2
  have hgln : gl.length ≤ n := by
    have h1 : gl.length = new.length := by rw [hdisc]
    have h2 : n = s.xp.n_evs + (createDirectives fnm (openedSys s)).length := by
      show (xprobe_create fnm accept flushAll (openedSys s)).2.xp.n_evs = _
      rw [c5]
      rfl
    omega
  have hclosedF : (attachErrClose accept flushAll err s5).2.closedFds
      = sC.closedFds ++ setWrites (List.replicate n 0) ws := by
    rw [e5]
    rfl
  refine ⟨?_, ?_, ?_, ?_, ?_⟩
  · rw [hthird]
    exact e1
  · rw [hthird]
    exact e2
  · rw [hthird, e3]
    have h0 : s5.chan.closeCount = 0 := by
      show (xprobe_create fnm accept flushAll (openedSys s)).2.chan.closeCount = 0
      rw [c11]
      rfl
    omega
  · rw [hthird, e4]
  · intro k hk
    rw [hthird, hclosedF]
    refine List.mem_append_right _ ?_
    have htk : (gl.take (j + 1)).length = j + 1 := by
      rw [List.length_take]
      omega
    have hgd : (gl.take (j + 1)).getD k "" = gl.getD k "" := by
      rw [List.getD_eq_getElem?_getD, List.getD_eq_getElem?_getD,
          List.getElem?_take_of_lt (by omega : k < j + 1)]
    have hmw := mem_withIdx_of_lt attachFn (gl.take (j + 1)) 0 k
      (by rw [htk]; omega)
    rw [hgd] at hmw
    have hb : (0 + k : Nat) < (List.replicate n (0 : Int)).length := by
      rw [List.length_replicate]
      omega
    have hfin := setWrites_mem (List.replicate n 0) ws
      (hws ▸ withIdx_fst_pairwise attachFn (gl.take (j + 1)) 0)
      (0 + k, attachFn (gl.getD k "")) (hws ▸ hmw) hb
    simpa using hfin



/-- Witness for C1: five pattern-expanded probes, the attach primitive
fails on the third with `-13`; attach returns `-13`, the event directory
retains no event of the ProbeSet, the channel is closed once, the handle
array is freed, and the successfully attached fd `7` was closed. -/
theorem xprobe_attach_rollback_witness :
    (xprobe_attach fnmatchModel acceptAll flushAll failOn3 true true patSys5).1 = -13
    ∧ (xprobe_attach fnmatchModel acceptAll flushAll failOn3 true true patSys5).2.events.filter
        (fun ev => (globPfx patSys5.group patSys5.pid).data.isPrefixOf ev.data) = []
    ∧ (xprobe_attach fnmatchModel acceptAll flushAll failOn3 true true patSys5).2.chan.closeCount = 1
    ∧ (xprobe_attach fnmatchModel acceptAll flushAll failOn3 true true patSys5).2.xp.evfds = none
    ∧ (7 : Int) ∈ (xprobe_attach fnmatchModel acceptAll flushAll failOn3 true true patSys5).2.closedFds := by
  obtain ⟨h1, h2, h3, h4, h5⟩ := xprobe_attach_rollback fnmatchModel acceptAll failOn3 patSys5 2
    (by decide) (by decide) (by decide) (by decide)
  refine ⟨h1.trans (by decide), h2, h3, h4, ?_⟩
  have := h5 0 (by decide)
  rwa [show failOn3 ((attachDiscovered fnmatchModel acceptAll patSys5).getD 0 "") = 7 from by decide] at this

/-- C9: the byte count `__xprobe_create` returns
(`strlen(stem) + 2*strlen(func) + 2`) equals exactly the number of bytes
it writes (`<stem><sanitized> <func>\n`), because the in-place
sanitization preserves the target's length; likewise `__xprobe_delete`'s
`2 + strlen(event) + 1` equals the length of `-:<event>\n`. -/
theorem writer_byte_counts (s : Sys) (stem func ev : String) :
    (__xprobe_create s stem func).1 = (createLine stem func).length
    ∧ (__xprobe_delete s ev).1 = (deleteLine ev).length
    ∧ (sanitize func).length = func.length := by
  refine ⟨?_, ?_, sanitize_length func⟩
  · show stem.length + 2 * func.length + 2 = _
    simp only [createLine, String.length_append, sanitize_length,
               show (" " : String).length = 1 from rfl,
               show ("\n" : String).length = 1 from rfl]
    omega
  · show 2 + ev.length + 1 = _
    simp only [deleteLine, String.length_append,
               show ("-:" : String).length = 2 from rfl,
               show ("\n" : String).length = 1 from rfl]

/-- C6: for every target string the create writer emits exactly the line
`<stem><sanitized-name> <full_target_spec>\n`, where the sanitized name
is the target with its first `+` and every `.` replaced by `_`, and the
target-spec field is the unmodified original string; the emitted text
contains exactly one newline when the inputs contain none. -/
theorem create_writer_line (stem func : String) :
    createLine stem func = stem ++ sanitize func ++ " " ++ func ++ "\n"
    ∧ ('+' ∉ func.data → (sanitize func).data = replaceDots func.data)
    ∧ (∀ a b : List Char, func.data = a ++ '+' :: b → '+' ∉ a →
        (sanitize func).data = replaceDots a ++ '_' :: replaceDots b)
    ∧ ('\n' ∉ stem.data → '\n' ∉ func.data →
        (createLine stem func).data.count '\n' = 1) := by
  refine ⟨rfl, ?_, ?_, ?_⟩
  · intro h
    show (replaceDots (replaceFirstPlus func.data)) = replaceDots func.data
    rw [replaceFirstPlus_of_not_mem h]
  · intro a b hab ha
    show (replaceDots (replaceFirstPlus func.data)) = _
    rw [hab, replaceFirstPlus_append ha]
    simp [replaceDots]
  · intro hs hf
    have hsan : '\n' ∉ (sanitize func).data := by
      intro hmem
      rcases mem_sanitize hmem with h | h
      · exact absurd h (by decide)
      · exact hf h
    show ((stem ++ sanitize func ++ " " ++ func ++ "\n" : String)).data.count '\n' = 1
    simp only [String.data_append, List.count_append]
    rw [List.count_eq_zero.mpr hs, List.count_eq_zero.mpr hsan,
        List.count_eq_zero.mpr hf]
    decide

/-- Witness for C6: the target `do_sys_open+0x10` yields the event-name
fragment `do_sys_open_0x10` while the target-spec field keeps the
original string. -/
theorem create_writer_line_witness :
    createLine "k:g/p1_" "do_sys_open+0x10"
      = "k:g/p1_do_sys_open_0x10 do_sys_open+0x10\n"
    ∧ (sanitize "do_sys_open+0x10").data
        = replaceDots "do_sys_open".data ++ '_' :: replaceDots "0x10".data := by
  have h := create_writer_line "k:g/p1_" "do_sys_open+0x10"
  refine ⟨?_, h.2.2.1 "do_sys_open".data "0x10".data (by decide) (by decide)⟩
  rw [h.1]
  decide

/-- C10: when the enumeration discovers at most `created_count` events,
every store of the attach loop lands inside the `xcalloc`ed,
zero-initialized handle array and the slots beyond the discovered count
keep their initial zero; when more events are discovered than were
created (and the primitive keeps succeeding), the loop reaches an index
at or beyond the array's allocated length. -/
theorem attach_array_bounds (attachFn : String → Int) (gl : List String) (n : Nat) :
    (gl.length ≤ n →
      (∀ w ∈ (attachLoop attachFn gl 0).1, w.1 < n)
      ∧ (setWrites (List.replicate n 0) (attachLoop attachFn gl 0).1).length = n
      ∧ (∀ k, gl.length ≤ k → k < n →
          (setWrites (List.replicate n 0) (attachLoop attachFn gl 0).1).get? k
            = some 0))
    ∧ (n < gl.length → (∀ e ∈ gl, 0 ≤ attachFn e) →
        ∃ w ∈ (attachLoop attachFn gl 0).1, n ≤ w.1) := by
  constructor
  · intro hle
    refine ⟨?_, ?_, ?_⟩
    · intro w hw
      have := attachLoop_fst_bound attachFn gl 0 w hw
      omega
    · rw [setWrites_length, List.length_replicate]
    · intro k hk1 hk2
      rw [setWrites_get?_of_not_mem]
      · rw [List.get?_eq_getElem?, List.getElem?_replicate_of_lt hk2]
      · intro w hw
        have := attachLoop_fst_bound attachFn gl 0 w hw
        omega
  · intro hlt hsucc
    rw [attachLoop_ok attachFn gl 0 hsucc]
    exact ⟨(0 + n, attachFn (gl.getD n "")),
           mem_withIdx_of_lt attachFn gl 0 n hlt, by omega⟩

/-- Witness for C10: with two discovered events and an array of two
slots every store is in bounds; with two discovered events and a single
slot the loop reaches index 1, past the allocated length. -/
theorem attach_array_bounds_witness :
    ((["a", "b"] : List String).length ≤ 2
      ∧ (∀ w ∈ (attachLoop (fun _ => 3) ["a", "b"] 0).1, w.1 < 2))
    ∧ (2 < (["a", "b", "c"] : List String).length
      ∧ ∃ w ∈ (attachLoop (fun _ => 3) ["a", "b", "c"] 0).1, 2 ≤ w.1) := by
  refine ⟨⟨by decide, ?_⟩, ⟨by decide, ?_⟩⟩
  · exact (attach_array_bounds (fun _ => 3) ["a", "b"] 2).1 (by decide) |>.1
  · exact (attach_array_bounds (fun _ => 3) ["a", "b", "c"] 2).2 (by decide)
      (by decide)

/-- C2 (amended): detach is a no-op returning success when the control
channel pointer is null — i.e. the ProbeSet was never attached (or the
open failed).  The code clears neither `xp->ctrl` nor `xp->n_evs` on
teardown, so this guard does not cover a second detach after a completed
one: there the handle-release loop dereferences the freed-and-NULL
`evfds` array and crashes (see the counterexample). -/
theorem detach_noop_when_ctrl_null (accept : String → Bool)
    (flushOk : Nat → Bool) (s : Sys) (h : s.xp.ctrl = false) :
    xprobe_detach accept flushOk s = (0, s) := by
  simp [xprobe_detach, h]

/-- Witness for the amended C2: detach on a never-attached ProbeSet
returns success and changes nothing. -/
theorem detach_noop_when_ctrl_null_witness :
    litSys.xp.ctrl = false
    ∧ xprobe_detach acceptAll flushAll litSys = (0, litSys) :=
  ⟨by decide, detach_noop_when_ctrl_null acceptAll flushAll litSys (by decide)⟩

/-- Counterexample to C2 as stated: after attach and one completed
detach, the state still has `xp->ctrl` set (never cleared by `fclose`),
`evfds` freed to NULL and `n_evs` still 1, and no fault so far; a second
detach call is therefore not a no-op returning success — the `!xp->ctrl`
guard does not fire, and the handle-release loop dereferences the NULL
`evfds` array (`close(xp->evfds[i])`, xprobe.c:121) and crashes before
any enumeration or second `fclose`. -/
theorem detach_twice_not_noop :
    (xprobe_detach acceptAll flushAll
      (xprobe_attach fnmatchModel acceptAll flushAll (fun _ => 3)
        true true litSys).2).2.xp.ctrl = true
    ∧ (xprobe_detach acceptAll flushAll
        (xprobe_attach fnmatchModel acceptAll flushAll (fun _ => 3)
          true true litSys).2).2.xp.evfds = none
    ∧ (xprobe_detach acceptAll flushAll
        (xprobe_attach fnmatchModel acceptAll flushAll (fun _ => 3)
          true true litSys).2).2.xp.n_evs = 1
    ∧ (xprobe_detach acceptAll flushAll
        (xprobe_attach fnmatchModel acceptAll flushAll (fun _ => 3)
          true true litSys).2).2.nullDeref = false
    ∧ (xprobe_detach acceptAll flushAll
        (xprobe_detach acceptAll flushAll
          (xprobe_attach fnmatchModel acceptAll flushAll (fun _ => 3)
            true true litSys).2).2).2.nullDeref = true := by
  decide

theorem chunkFlushes_zero_of_le :
    ∀ (costs : List Nat) (pend : Nat), pend + costs.sum ≤ 0x1000 - 0x200 →
      chunkFlushes costs pend = 0 := by
  intro costs
  induction costs with
  | nil => intro pend _; rfl
  | cons c cs ih =>
      intro pend h
      simp only [List.sum_cons] at h
      have hth : ¬ pend + c > 0x1000 - 0x200 := by omega
      simp only [chunkFlushes, if_neg hth]
      exact ih (pend + c) (by omega)

/-- C4 (amended): under the flush-threshold policy of the delete loop, a
forced flush fires exactly when a delete directive pushes the pending
byte counter strictly beyond `0x1000 - 0x200 = 3584` bytes (and the
counter then resets) — the flush count equals the `chunkFlushes`
accounting; in particular, when the cumulative pending length stays at
or below 3584 bytes (e.g. lands exactly on 3584), no forced flush
happens at all. -/
theorem delete_flush_threshold (accept : String → Bool) (s : Sys)
    (hne : s.events.filter (fun ev =>
      (globPfx s.group s.pid).data.isPrefixOf ev.data) ≠ []) :
    (__xprobe_delete_all accept flushAll s).2.flushCount
      = s.flushCount + chunkFlushes ((s.events.filter fun ev =>
          (globPfx s.group s.pid).data.isPrefixOf ev.data).map
          fun e => 2 + e.length + 1) 0
    ∧ (((s.events.filter fun ev =>
          (globPfx s.group s.pid).data.isPrefixOf ev.data).map
          fun e => 2 + e.length + 1).sum ≤ 0x1000 - 0x200 →
        (__xprobe_delete_all accept flushAll s).2.flushCount = s.flushCount) := by
  obtain ⟨g1, g2, g3, g4, g5, g6, g7, g8, g9, g10, g11, g12⟩ :=
    delete_all_flushAll accept s hne
  refine ⟨g4, fun hsum => ?_⟩
  rw [g4, chunkFlushes_zero_of_le _ 0 (by omega)]
  omega

/-- Witness for the amended C4: one short discovered event, cumulative
pending 9 bytes, no forced flush. -/
theorem delete_flush_threshold_witness :
    (smallDetachSys.events.filter (fun ev =>
        (globPfx smallDetachSys.group smallDetachSys.pid).data.isPrefixOf
          ev.data) ≠ [])
    ∧ ((smallDetachSys.events.filter fun ev =>
          (globPfx smallDetachSys.group smallDetachSys.pid).data.isPrefixOf
            ev.data).map fun e => 2 + e.length + 1).sum ≤ 0x1000 - 0x200
    ∧ (__xprobe_delete_all acceptAll flushAll smallDetachSys).2.flushCount
        = smallDetachSys.flushCount :=
  ⟨by decide, by decide,
   (delete_flush_threshold acceptAll smallDetachSys (by decide)).2 (by decide)⟩

/-- Counterexample to C4 as stated: a delete directive bringing the
pending counter to exactly 3584 bytes does not trigger the forced flush
(`pending > 3584` is false): the delete directive is written but the
loop performs no flush at all, so the 3584 pending bytes stay buffered. -/
theorem threshold_exact_no_flush :
    2 + bigEv.length + 1 = 3584
    ∧ (__xprobe_delete_all acceptAll flushAll thresholdSys).2.flushCount = 0
    ∧ (__xprobe_delete_all acceptAll flushAll thresholdSys).2.chan.written
        = [Directive.delete bigEv] := by
  have hlen : bigEv.length = 3581 := by
    show bigEv.data.length = 3581
    show ('g' :: '/' :: 'p' :: '1' :: '_' :: List.replicate 3576 'a').length = 3581
    simp only [List.length_cons, List.length_replicate]
  have hpref : (globPfx "g" "1").data.isPrefixOf bigEv.data = true := by
    rw [show (globPfx "g" "1").data = ['g', '/', 'p', '1', '_'] from by decide]
    show List.isPrefixOf _ ('g' :: '/' :: 'p' :: '1' :: '_' :: List.replicate 3576 'a') = true
    simp [List.isPrefixOf]
  have hfil : thresholdSys.events.filter (fun ev =>
      (globPfx thresholdSys.group thresholdSys.pid).data.isPrefixOf ev.data)
      = [bigEv] := by
    show List.filter _ [bigEv] = [bigEv]
    rw [List.filter_cons]
    simp only [show (globPfx thresholdSys.group thresholdSys.pid)
        = globPfx "g" "1" from rfl, hpref, if_true, List.filter_nil]
  obtain ⟨g1, g2, g3, g4, g5, g6, g7, g8, g9, g10, g11, g12⟩ :=
    delete_all_flushAll acceptAll thresholdSys
      (by rw [hfil]; exact List.cons_ne_nil _ _)
  refine ⟨by omega, ?_, ?_⟩
  · rw [g4, hfil]
    simp only [List.map_cons, List.map_nil, hlen]
    show 0 + chunkFlushes [3584] 0 = 0
    simp [chunkFlushes]
  · rw [g3, hfil]
    rfl

/-! ## General-oracle frame lemmas and the detach failure policy -/

theorem doFflush_frame (accept : String → Bool) (flushOk : Nat → Bool) (s : Sys) :
    (doFflush accept flushOk s).2.xp = s.xp
    ∧ (doFflush accept flushOk s).2.closedFds = s.closedFds
    ∧ (doFflush accept flushOk s).2.warns = s.warns
    ∧ (doFflush accept flushOk s).2.attachedFds = s.attachedFds
    ∧ (doFflush accept flushOk s).2.chan.closeCount = s.chan.closeCount
    ∧ (doFflush accept flushOk s).2.chan.written = s.chan.written
    ∧ (doFflush accept flushOk s).2.group = s.group
    ∧ (doFflush accept flushOk s).2.pid = s.pid := by
  unfold doFflush
  by_cases h : flushOk s.flushCount <;> simp [h]

theorem doFclose_effect (accept : String → Bool) (flushOk : Nat → Bool) (s : Sys) :
    (doFclose accept flushOk s).xp = s.xp
    ∧ (doFclose accept flushOk s).closedFds = s.closedFds
    ∧ (doFclose accept flushOk s).chan.closeCount = s.chan.closeCount + 1 := by
  obtain ⟨f1, f2, f3, f4, f5, f6, f7, f8⟩ := doFflush_frame accept flushOk s
  unfold doFclose
  refine ⟨f1, f2, ?_⟩
  show (doFflush accept flushOk s).2.chan.closeCount + 1 = s.chan.closeCount + 1
  rw [f5]

theorem deleteLoop_frame (accept : String → Bool) (flushOk : Nat → Bool) :
    ∀ (evs : List String) (s : Sys) (pend : Nat),
      (deleteLoop accept flushOk s evs pend).1.xp = s.xp
      ∧ (deleteLoop accept flushOk s evs pend).1.closedFds = s.closedFds
      ∧ (deleteLoop accept flushOk s evs pend).1.chan.closeCount
          = s.chan.closeCount := by
  intro evs
  induction evs with
  | nil => intro s pend; exact ⟨rfl, rfl, rfl⟩
  | cons e evs ih =>
      intro s pend
      show (deleteLoop accept flushOk s (e :: evs) pend).1.xp = s.xp ∧ _
      by_cases hth : pend + (2 + e.length + 1) > 0x1000 - 0x200
      · by_cases hfl : flushOk (chanWrite s (.delete e)).flushCount
        · have hstep : deleteLoop accept flushOk s (e :: evs) pend
              = deleteLoop accept flushOk
                  (doFflush accept flushOk (chanWrite s (.delete e))).2 evs 0 := by
            simp only [deleteLoop, __xprobe_delete]
            rw [if_pos hth]
            simp only [doFflush]
            rw [if_pos hfl]
            simp [doFflush, hfl]
          rw [hstep]
          obtain ⟨i1, i2, i3⟩ :=
            ih (doFflush accept flushOk (chanWrite s (.delete e))).2 0
          obtain ⟨f1, f2, _, _, f5, _, _, _⟩ :=
            doFflush_frame accept flushOk (chanWrite s (.delete e))
          refine ⟨?_, ?_, ?_⟩
          · rw [i1, f1]
            rfl
          · rw [i2, f2]
            rfl
          · rw [i3, f5]
            rfl
        · have hstep : deleteLoop accept flushOk s (e :: evs) pend
              = ((doFflush accept flushOk (chanWrite s (.delete e))).2, -1) := by
            simp only [deleteLoop, __xprobe_delete]
            rw [if_pos hth]
            simp only [doFflush]
            rw [if_neg hfl]
            simp [doFflush, hfl]
          rw [hstep]
          obtain ⟨f1, f2, _, _, f5, _, _, _⟩ :=
            doFflush_frame accept flushOk (chanWrite s (.delete e))
          exact ⟨f1, f2, f5⟩
      · have hstep : deleteLoop accept flushOk s (e :: evs) pend
            = deleteLoop accept flushOk (chanWrite s (.delete e)) evs
                (pend + (2 + e.length + 1)) := by
          simp only [deleteLoop, __xprobe_delete]
          rw [if_neg hth]
        rw [hstep]
        exact ih (chanWrite s (.delete e)) (pend + (2 + e.length + 1))

theorem delete_all_frame (accept : String → Bool) (flushOk : Nat → Bool) (s : Sys) :
    (__xprobe_delete_all accept flushOk s).2.xp = s.xp
    ∧ (__xprobe_delete_all accept flushOk s).2.closedFds = s.closedFds
    ∧ (__xprobe_delete_all accept flushOk s).2.chan.closeCount
        = s.chan.closeCount := by
  by_cases hg : (xprobe_glob s).1 ≠ 0
  · simp [__xprobe_delete_all, hg]
  · by_cases hw : (xprobe_glob s).2.length ≠ s.xp.n_evs
    · obtain ⟨i1, i2, i3⟩ := deleteLoop_frame accept flushOk (xprobe_glob s).2
        { s with warns := s.warns + 1 } 0
      simp [__xprobe_delete_all, hg, hw, i1, i2, i3]
    · obtain ⟨i1, i2, i3⟩ := deleteLoop_frame accept flushOk (xprobe_glob s).2 s 0
      simp [__xprobe_delete_all, hg, hw, i1, i2, i3]

/-- C3 (amended): on every detach of an attached ProbeSet the handles
are released and the channel is closed exactly once more, and the value
returned is the first hard failure among the delete phase (step 3) and
the explicit final flush (step 4) — but the steps do not all run to
completion: a step-3 failure short-circuits past the step-4 flush
(`goto err_close`), and a flush failure inside the delete loop abandons
the remaining delete directives (see the counterexample). -/
theorem detach_first_failure (accept : String → Bool) (flushOk : Nat → Bool)
    (s : Sys) (hctrl : s.xp.ctrl = true) :
    (xprobe_detach accept flushOk s).2.xp.evfds = none
    ∧ (xprobe_detach accept flushOk s).2.chan.closeCount
        = s.chan.closeCount + 1
    ∧ (xprobe_detach accept flushOk s).2.closedFds
        = s.closedFds ++ s.xp.evfds.getD []
    ∧ (xprobe_detach accept flushOk s).1
        = (if (__xprobe_delete_all accept flushOk (__xprobe_detach s).2).1 ≠ 0
           then (__xprobe_delete_all accept flushOk (__xprobe_detach s).2).1
           else if (doFflush accept flushOk
                  (__xprobe_delete_all accept flushOk
                    (__xprobe_detach s).2).2).1
                then 0 else -5) := by
  have hd := xdetach_effect s
  set s1 : Sys := { s with closedFds := s.closedFds ++ s.xp.evfds.getD [],
                           nullDeref := s.nullDeref
                             || (s.xp.evfds.isNone && decide (0 < s.xp.n_evs)),
                           xp := { s.xp with evfds := none } } with hs1
  obtain ⟨d1, d2, d3⟩ := delete_all_frame accept flushOk s1
  by_cases h3 : (__xprobe_delete_all accept flushOk s1).1 ≠ 0
  · have hstep : xprobe_detach accept flushOk s
        = ((__xprobe_delete_all accept flushOk s1).1,
           doFclose accept flushOk (__xprobe_delete_all accept flushOk s1).2) := by
      simp [xprobe_detach, hctrl, hd, h3]
    obtain ⟨e1, e2, e3⟩ :=
      doFclose_effect accept flushOk (__xprobe_delete_all accept flushOk s1).2
    rw [hstep]
    refine ⟨?_, ?_, ?_, ?_⟩
    · rw [e1, d1]
    · rw [e3, d3]
    · rw [e2, d2]
    · rw [hd]
      simp only []
      rw [if_pos h3]
  · have hstep : xprobe_detach accept flushOk s
        = ((if (doFflush accept flushOk
              (__xprobe_delete_all accept flushOk s1).2).1 then 0 else -5 : Int),
           doFclose accept flushOk
             (doFflush accept flushOk
               (__xprobe_delete_all accept flushOk s1).2).2) := by
      simp [xprobe_detach, hctrl, hd, h3]
    obtain ⟨f1, f2, _, _, f5, _, _, _⟩ :=
      doFflush_frame accept flushOk (__xprobe_delete_all accept flushOk s1).2
    obtain ⟨e1, e2, e3⟩ := doFclose_effect accept flushOk
      (doFflush accept flushOk (__xprobe_delete_all accept flushOk s1).2).2
    rw [hstep]
    refine ⟨?_, ?_, ?_, ?_⟩
    · rw [e1, f1, d1]
    · rw [e3, f5, d3]
    · rw [e2, f2, d2]
    · rw [hd]
      simp only []
      rw [if_neg h3]

/-- Witness for the amended C3: a healthy detach of an attached ProbeSet
with one short event releases the handles, closes the channel once, and
returns the step-3/step-4 first-failure value (here success). -/
theorem detach_first_failure_witness :
    smallDetachSys.xp.ctrl = true
    ∧ ((xprobe_detach acceptAll flushAll smallDetachSys).2.xp.evfds = none
       ∧ (xprobe_detach acceptAll flushAll smallDetachSys).2.chan.closeCount
           = smallDetachSys.chan.closeCount + 1
       ∧ (xprobe_detach acceptAll flushAll smallDetachSys).2.closedFds
           = smallDetachSys.closedFds ++ smallDetachSys.xp.evfds.getD []
       ∧ (xprobe_detach acceptAll flushAll smallDetachSys).1
           = (if (__xprobe_delete_all acceptAll flushAll
                 (__xprobe_detach smallDetachSys).2).1 ≠ 0
              then (__xprobe_delete_all acceptAll flushAll
                 (__xprobe_detach smallDetachSys).2).1
              else if (doFflush acceptAll flushAll
                     (__xprobe_delete_all acceptAll flushAll
                       (__xprobe_detach smallDetachSys).2).2).1
                   then 0 else -5)) :=
  ⟨by decide, detach_first_failure acceptAll flushAll smallDetachSys (by decide)⟩

set_option maxRecDepth 4000 in
/-- Counterexample to C3 as stated: with a flush-rejecting control file,
the flush forced partway through the delete loop fails, the loop breaks
(the later events' delete directives are never even written), detach
returns the loop's `EOF` failure (`-1`), and the remaining events
survive in the directory — steps 2–4 do not all run to completion. -/
theorem detach_abandons_remaining_deletes :
    (xprobe_detach acceptAll flushNone manyEvSys).1 = -1
    ∧ (Directive.delete ⟨'g' :: '/' :: 'p' :: '1' :: '_' :: List.replicate 112 'a'⟩
        ∉ (xprobe_detach acceptAll flushNone manyEvSys).2.chan.written)
    ∧ ((⟨'g' :: '/' :: 'p' :: '1' :: '_' :: List.replicate 112 'a'⟩ : String)
        ∈ (xprobe_detach acceptAll flushNone manyEvSys).2.events)
    ∧ (xprobe_detach acceptAll flushNone manyEvSys).2.chan.closeCount = 1 := by
  decide

/-- Effect of a fully successful `xprobe_attach` (healthy flushes, no
stale stem-prefixed entries, attach primitive succeeding on every
discovered event). -/
theorem attach_ok (fnm : String → String → Bool) (accept : String → Bool)
    (attachFn : String → Int) (s : Sys)
    (hclean : s.events.filter (fun ev =>
      (globPfx s.group s.pid).data.isPrefixOf ev.data) = [])
    (hne : attachDiscovered fnm accept s ≠ [])
    (hatt : ∀ e ∈ attachDiscovered fnm accept s, 0 ≤ attachFn e) :
    (xprobe_attach fnm accept flushAll attachFn true true s).1 = 0
    ∧ (xprobe_attach fnm accept flushAll attachFn true true s).2.events
        = (afterCreate fnm accept s).events
    ∧ (xprobe_attach fnm accept flushAll attachFn true true s).2.events.filter
        (fun ev => (globPfx s.group s.pid).data.isPrefixOf ev.data)
        = attachDiscovered fnm accept s
    ∧ (xprobe_attach fnm accept flushAll attachFn true true s).2.warns
        = s.warns + (if (attachDiscovered fnm accept s).length
            ≠ createdCount fnm accept s then 1 else 0)
    ∧ (xprobe_attach fnm accept flushAll attachFn true true s).2.attachedFds
        = s.attachedFds ++ (attachDiscovered fnm accept s).map attachFn
    ∧ (xprobe_attach fnm accept flushAll attachFn true true s).2.xp.ctrl = true
    ∧ (xprobe_attach fnm accept flushAll attachFn true true s).2.xp.n_evs
        = createdCount fnm accept s
    ∧ (xprobe_attach fnm accept flushAll attachFn true true s).2.chan.buf = []
    ∧ (xprobe_attach fnm accept flushAll attachFn true true s).2.chan.closeCount = 0
    ∧ (xprobe_attach fnm accept flushAll attachFn true true s).2.group = s.group
    ∧ (xprobe_attach fnm accept flushAll attachFn true true s).2.pid = s.pid
    ∧ (xprobe_attach fnm accept flushAll attachFn true true s).2.xp.evfds
        = some (setWrites (List.replicate (createdCount fnm accept s) 0)
            (withIdx attachFn 0 (attachDiscovered fnm accept s))) := by
  obtain ⟨c1, c2, c3, c4, c5, c6, c7, c8, c9, c10, c11, c12, c13, c14, c15,
          c16, c17⟩ := create_flushAll fnm accept (openedSys s) rfl
  set gl : List String := attachDiscovered fnm accept s with hgl
  set sC : Sys := afterCreate fnm accept s with hsC
  set n : Nat := sC.xp.n_evs with hn
  set sA : Sys := { sC with xp := { sC.xp with evfds := some (List.replicate n 0) } }
    with hsA
  have hgroup : sC.group = s.group := c15
  have hpid : sC.pid = s.pid := c16
  have hfirst : xprobe_attach fnm accept flushAll attachFn true true s
      = (if (__xprobe_attach attachFn sA).1 ≠ 0 then
           attachErrClose accept flushAll (__xprobe_attach attachFn sA).1
             (__xprobe_detach (__xprobe_attach attachFn sA).2).2
         else (0, (__xprobe_attach attachFn sA).2)) := by
    have hc1 : (xprobe_create fnm accept flushAll
        { s with xp := { s.xp with ctrl := true },
                 chan := { buf := [], closeCount := 0, written := [] } }).1 = 0 := c1
    unfold xprobe_attach
    simp only [Bool.not_true, Bool.false_eq_true, if_false, hc1, ne_eq,
               not_true_eq_false, not_false_eq_true, ite_true, ite_false]
    rfl
  have hAfilter : sA.events.filter (fun ev =>
      (globPfx sA.group sA.pid).data.isPrefixOf ev.data) = gl := by
    show sC.events.filter (fun ev =>
      (globPfx sC.group sC.pid).data.isPrefixOf ev.data) = gl
    rw [hgroup, hpid]
    rw [hgl]
    rfl
  have hneA : sA.events.filter (fun ev =>
      (globPfx sA.group sA.pid).data.isPrefixOf ev.data) ≠ [] := by
    rw [hAfilter]; exact hne
  have hXA := xattach_effect attachFn sA hneA
  rw [hAfilter] at hXA
  have hloop := attachLoop_ok attachFn gl 0 hatt
  rw [hloop] at hXA
  set ws : List (Nat × Int) := withIdx attachFn 0 gl with hws
  set S2 : Sys := { sA with
      warns := sA.warns + (if gl.length ≠ sA.xp.n_evs then 1 else 0),
      xp := { sA.xp with evfds := some (setWrites (sA.xp.evfds.getD []) ws) },
      attachedFds := sA.attachedFds ++ ws.map Prod.snd } with hS2
  have hXA' : __xprobe_attach attachFn sA = (0, S2) := hXA
  have hsecond : xprobe_attach fnm accept flushAll attachFn true true s
      = (0, S2) := by
    rw [hfirst, hXA']
    simp
  rw [hsecond]
  have hwarnsA : sA.warns = s.warns := c12
  have hnevsA : sA.xp.n_evs = n := rfl
  have hncc : n = createdCount fnm accept s := rfl
  refine ⟨rfl, ?_, ?_, ?_, ?_, ?_, ?_, ?_, ?_, ?_, ?_, ?_⟩
  · show sA.events = sC.events
    rfl
  · rfl
  · show sA.warns + (if gl.length ≠ sA.xp.n_evs then 1 else 0) = _
    rw [hwarnsA, hnevsA, hncc]
  · show sA.attachedFds ++ ws.map Prod.snd = _
    rw [show sA.attachedFds = s.attachedFds from c14, hws,
        withIdx_map_snd attachFn 0 gl]
  · show sA.xp.ctrl = true
    exact c7.trans rfl
  · show sA.xp.n_evs = _
    rw [hnevsA, hncc]
  · show sA.chan.buf = []
    exact c3
  · show sA.chan.closeCount = 0
    exact c11
  · show sA.group = s.group
    exact hgroup
  · show sA.pid = s.pid
    exact hpid
  · rfl

/-- C8: for a literal target, a successful attach immediately followed
by detach leaves the event directory with no entry whose name starts
with the ProbeSet's stem-local prefix — each created definition's delete
directive uses exactly the discovered event name. -/
theorem attach_detach_roundtrip (fnm : String → String → Bool)
    (accept : String → Bool) (attachFn : String → Int) (s : Sys)
    (hmeta : hasMeta s.xp.pattern = false)
    (hclean : s.events.filter (fun ev =>
      (globPfx s.group s.pid).data.isPrefixOf ev.data) = [])
    (hacc : accept (globPfx s.group s.pid ++ sanitize s.xp.pattern) = true)
    (hatt : 0 ≤ attachFn (globPfx s.group s.pid ++ sanitize s.xp.pattern)) :
    (xprobe_attach fnm accept flushAll attachFn true true s).1 = 0
    ∧ (xprobe_detach accept flushAll
        (xprobe_attach fnm accept flushAll attachFn true true s).2).1 = 0
    ∧ (xprobe_detach accept flushAll
        (xprobe_attach fnm accept flushAll attachFn true true s).2).2.events.filter
        (fun ev => (globPfx s.group s.pid).data.isPrefixOf ev.data) = [] := by
  set ev : String := globPfx s.group s.pid ++ sanitize s.xp.pattern with hev
  have hmeta' : hasMeta (openedSys s).xp.pattern = false := hmeta
  have hcond : ¬ ((hasMeta (openedSys s).xp.pattern
      && (openedSys s).ksyms.isSome) = true) := by
    rw [hmeta']
    simp
  have hdirs : createDirectives fnm (openedSys s)
      = [Directive.create (mkStem s.xp.typ s.group s.pid)
          (sanitize s.xp.pattern) s.xp.pattern] := by
    unfold createDirectives
    rw [if_neg hcond]
    rfl
  obtain ⟨c1, c2, c3, c4, c5, c6, c7, c8, c9, c10, c11, c12, c13, c14, c15,
          c16, c17⟩ := create_flushAll fnm accept (openedSys s) rfl
  have hevpfx : (globPfx s.group s.pid).data.isPrefixOf ev.data = true := by
    rw [hev, String.data_append, List.isPrefixOf_iff_prefix]
    exact List.prefix_append _ _
  have hnotin : ev ∉ s.events := by
    intro hin
    have : ev ∈ s.events.filter (fun e =>
        (globPfx s.group s.pid).data.isPrefixOf e.data) :=
      List.mem_filter.mpr ⟨hin, hevpfx⟩
    rw [hclean] at this
    exact absurd this (List.not_mem_nil _)
  have hevents : (afterCreate fnm accept s).events = s.events ++ [ev] := by
    show (xprobe_create fnm accept flushAll (openedSys s)).2.events = _
    rw [c2, hdirs]
    show addEvent accept s.events
        (stemLocal (mkStem s.xp.typ s.group s.pid) ++ sanitize s.xp.pattern) = _
    rw [stemLocal_mkStem]
    have hcont : s.events.contains ev = false := by
      simpa using hnotin
    unfold addEvent
    rw [if_pos (by rw [hacc, hcont]; rfl)]
  have hdisc : attachDiscovered fnm accept s = [ev] := by
    unfold attachDiscovered
    rw [hevents, List.filter_append, hclean, List.nil_append]
    show List.filter _ [ev] = [ev]
    rw [List.filter_cons]
    simp [hevpfx]
  have hne : attachDiscovered fnm accept s ≠ [] := by
    rw [hdisc]
    exact List.cons_ne_nil _ _
  have hatt' : ∀ e ∈ attachDiscovered fnm accept s, 0 ≤ attachFn e := by
    rw [hdisc]
    intro e he
    rcases List.mem_singleton.mp he with rfl
    exact hatt
  obtain ⟨a1, a2, a3, a4, a5, a6, a7, a8, a9, a10, a11, a12⟩ :=
    attach_ok fnm accept attachFn s hclean hne hatt'
  set S : Sys := (xprobe_attach fnm accept flushAll attachFn true true s).2 with hS
  have hfneS : S.events.filter (fun e =>
      (globPfx S.group S.pid).data.isPrefixOf e.data) ≠ [] := by
    rw [show S.group = s.group from a10, show S.pid = s.pid from a11, a3, hdisc]
    exact List.cons_ne_nil _ _
  obtain ⟨d1, d2, d3, d4, d5, d6, d7⟩ := detach_flushAll accept S a6 a8 hfneS
  rw [show S.group = s.group from a10, show S.pid = s.pid from a11] at d3
  exact ⟨a1, d1, d3⟩

/-- Witness for C8: literal target `do_sys_open+0x10`, healthy kernel
and attach primitive; attach and detach both succeed and no
stem-prefixed entry survives. -/
theorem attach_detach_roundtrip_witness :
    (xprobe_attach fnmatchModel acceptAll flushAll (fun _ => 7) true true litSys).1 = 0
    ∧ (xprobe_detach acceptAll flushAll
        (xprobe_attach fnmatchModel acceptAll flushAll (fun _ => 7) true true litSys).2).1 = 0
    ∧ (xprobe_detach acceptAll flushAll
        (xprobe_attach fnmatchModel acceptAll flushAll (fun _ => 7) true true litSys).2).2.events.filter
        (fun ev => (globPfx litSys.group litSys.pid).data.isPrefixOf ev.data) = [] :=
  attach_detach_roundtrip fnmatchModel acceptAll (fun _ => 7) litSys
    (by decide) (by decide) (by decide) (by decide)

/-- C5 (amended): when enumeration discovers at least one event and the
count differs from `created_count`, both attach and detach emit exactly
one non-fatal diagnostic each and proceed with the discovered set —
attach succeeds with one handle per discovered event and detach still
succeeds; zero discovered events, however, make the enumeration itself
fail and attach returns `-EINVAL` (see the counterexample). -/
theorem count_mismatch_tolerated (fnm : String → String → Bool)
    (accept : String → Bool) (attachFn : String → Int) (s : Sys)
    (hclean : s.events.filter (fun ev =>
      (globPfx s.group s.pid).data.isPrefixOf ev.data) = [])
    (hne : attachDiscovered fnm accept s ≠ [])
    (hmis : (attachDiscovered fnm accept s).length ≠ createdCount fnm accept s)
    (hatt : ∀ e ∈ attachDiscovered fnm accept s, 0 ≤ attachFn e) :
    (xprobe_attach fnm accept flushAll attachFn true true s).1 = 0
    ∧ (xprobe_attach fnm accept flushAll attachFn true true s).2.warns
        = s.warns + 1
    ∧ (xprobe_attach fnm accept flushAll attachFn true true s).2.attachedFds
        = s.attachedFds ++ (attachDiscovered fnm accept s).map attachFn
    ∧ (xprobe_detach accept flushAll
        (xprobe_attach fnm accept flushAll attachFn true true s).2).1 = 0
    ∧ (xprobe_detach accept flushAll
        (xprobe_attach fnm accept flushAll attachFn true true s).2).2.warns
        = s.warns + 2 := by
  obtain ⟨a1, a2, a3, a4, a5, a6, a7, a8, a9, a10, a11, a12⟩ :=
    attach_ok fnm accept attachFn s hclean hne hatt
  set S : Sys := (xprobe_attach fnm accept flushAll attachFn true true s).2 with hS
  have hwarnS : S.warns = s.warns + 1 := by
    rw [a4, if_pos hmis]
  have hfneS : S.events.filter (fun e =>
      (globPfx S.group S.pid).data.isPrefixOf e.data) ≠ [] := by
    rw [show S.group = s.group from a10, show S.pid = s.pid from a11, a3]
    exact hne
  obtain ⟨d1, d2, d3, d4, d5, d6, d7⟩ := detach_flushAll accept S a6 a8 hfneS
  refine ⟨a1, hwarnS, a5, d1, ?_⟩
  rw [d7, hwarnS]
  rw [show S.group = s.group from a10, show S.pid = s.pid from a11, a3, a7,
      if_pos hmis]

/-- Witness for the amended C5: five created probe definitions, the
kernel silently rejects the third, so 4 of 5 are discoverable; attach
succeeds with 4 handles and one diagnostic, detach succeeds with a
second diagnostic. -/
theorem count_mismatch_tolerated_witness :
    (attachDiscovered fnmatchModel rej3 patSys5).length = 4
    ∧ createdCount fnmatchModel rej3 patSys5 = 5
    ∧ ((xprobe_attach fnmatchModel rej3 flushAll (fun _ => 7) true true patSys5).1 = 0
       ∧ (xprobe_attach fnmatchModel rej3 flushAll (fun _ => 7) true true patSys5).2.warns
           = patSys5.warns + 1
       ∧ (xprobe_attach fnmatchModel rej3 flushAll (fun _ => 7) true true patSys5).2.attachedFds
           = patSys5.attachedFds
             ++ (attachDiscovered fnmatchModel rej3 patSys5).map (fun _ => 7)
       ∧ (xprobe_detach rej3 flushAll
           (xprobe_attach fnmatchModel rej3 flushAll (fun _ => 7) true true patSys5).2).1 = 0
       ∧ (xprobe_detach rej3 flushAll
           (xprobe_attach fnmatchModel rej3 flushAll (fun _ => 7) true true patSys5).2).2.warns
           = patSys5.warns + 2) :=
  ⟨by decide, by decide,
   count_mismatch_tolerated fnmatchModel rej3 (fun _ => 7) patSys5
     (by decide) (by decide) (by decide) (by decide)⟩

/-- Counterexample to C5 as stated: when the kernel rejects every
submitted definition, zero events are discovered (`created_count = 1`,
discovered `= 0` — a mismatch "in either direction, including zero");
far from emitting a diagnostic and proceeding, attach returns the
enumeration failure `-EINVAL` (-22) and no diagnostic is logged. -/
theorem zero_discovered_attach_fails :
    createdCount fnmatchModel (fun _ => false) litSys = 1
    ∧ attachDiscovered fnmatchModel (fun _ => false) litSys = []
    ∧ (xprobe_attach fnmatchModel (fun _ => false) flushAll (fun _ => 3)
        true true litSys).1 = -22
    ∧ (xprobe_attach fnmatchModel (fun _ => false) flushAll (fun _ => 3)
        true true litSys).2.warns = litSys.warns := by
  decide

/-- C7: `xprobe_create` treats the target as a pattern iff it contains a
glob/extended-glob metacharacter (`?*[!@`) and a symbol source is
available — the pattern path emits exactly one create directive per
matching kernel symbol, the literal path emits exactly one directive —
incrementing `created_count` per directive; and, absent kernel rejection
and attach failures, attach acquires one handle per match. -/
theorem pattern_expansion (fnm : String → String → Bool)
    (accept : String → Bool) (attachFn : String → Int) (s : Sys) :
    (∀ syms, s.ksyms = some syms → hasMeta s.xp.pattern = true →
      s.chan.buf = [] →
      (xprobe_create fnm accept flushAll s).2.chan.written
        = s.chan.written ++ ((syms.filter (fnm s.xp.pattern)).map fun sym =>
            Directive.create (mkStem s.xp.typ s.group s.pid) (sanitize sym) sym)
      ∧ (xprobe_create fnm accept flushAll s).2.xp.n_evs
          = s.xp.n_evs + (syms.filter (fnm s.xp.pattern)).length)
    ∧ ((hasMeta s.xp.pattern = false ∨ s.ksyms = none) → s.chan.buf = [] →
      (xprobe_create fnm accept flushAll s).2.chan.written
        = s.chan.written ++ [Directive.create (mkStem s.xp.typ s.group s.pid)
            (sanitize s.xp.pattern) s.xp.pattern]
      ∧ (xprobe_create fnm accept flushAll s).2.xp.n_evs = s.xp.n_evs + 1)
    ∧ (∀ syms, s.ksyms = some syms → hasMeta s.xp.pattern = true →
      s.events.filter (fun ev =>
        (globPfx s.group s.pid).data.isPrefixOf ev.data) = [] →
      (∀ nm ∈ (syms.filter (fnm s.xp.pattern)).map
          (fun sym => globPfx s.group s.pid ++ sanitize sym), accept nm = true) →
      ((syms.filter (fnm s.xp.pattern)).map
          (fun sym => globPfx s.group s.pid ++ sanitize sym)).Nodup →
      syms.filter (fnm s.xp.pattern) ≠ [] →
      (∀ e ∈ (syms.filter (fnm s.xp.pattern)).map
          (fun sym => globPfx s.group s.pid ++ sanitize sym), 0 ≤ attachFn e) →
      (xprobe_attach fnm accept flushAll attachFn true true s).1 = 0
      ∧ (xprobe_attach fnm accept flushAll attachFn true true s).2.attachedFds
          = s.attachedFds ++ ((syms.filter (fnm s.xp.pattern)).map
              (fun sym => globPfx s.group s.pid ++ sanitize sym)).map attachFn) := by
  refine ⟨?_, ?_, ?_⟩
  · intro syms hsyms hm hbuf
    have hdirs : createDirectives fnm s
        = (syms.filter (fnm s.xp.pattern)).map fun sym =>
            Directive.create (mkStem s.xp.typ s.group s.pid) (sanitize sym) sym := by
      unfold createDirectives
      rw [if_pos (by rw [hm, hsyms]; rfl), hsyms]
      rfl
    obtain ⟨c1, c2, c3, c4, c5, c6, c7, c8, c9, c10, c11, c12, c13, c14, c15,
            c16, c17⟩ := create_flushAll fnm accept s hbuf
    constructor
    · rw [c4, hdirs]
    · rw [c5, hdirs, List.length_map]
  · intro hlit hbuf
    have hcond : ¬ ((hasMeta s.xp.pattern && s.ksyms.isSome) = true) := by
      rcases hlit with h | h
      · rw [h]; simp
      · rw [h]; simp
    have hdirs : createDirectives fnm s
        = [Directive.create (mkStem s.xp.typ s.group s.pid)
            (sanitize s.xp.pattern) s.xp.pattern] := by
      unfold createDirectives
      rw [if_neg hcond]
    obtain ⟨c1, c2, c3, c4, c5, c6, c7, c8, c9, c10, c11, c12, c13, c14, c15,
            c16, c17⟩ := create_flushAll fnm accept s hbuf
    constructor
    · rw [c4, hdirs]
    · rw [c5, hdirs]
      rfl
  · intro syms hsyms hm hclean hacc hndp hmne hatt
    set names : List String := (syms.filter (fnm s.xp.pattern)).map
        (fun sym => globPfx s.group s.pid ++ sanitize sym) with hnames
    have hdirsO : createDirectives fnm (openedSys s)
        = (syms.filter (fnm s.xp.pattern)).map fun sym =>
            Directive.create (mkStem s.xp.typ s.group s.pid) (sanitize sym) sym := by
      unfold createDirectives
      rw [if_pos (show (hasMeta (openedSys s).xp.pattern
            && (openedSys s).ksyms.isSome) = true by
          show (hasMeta s.xp.pattern && s.ksyms.isSome) = true
          rw [hm, hsyms]
          rfl)]
      rw [show (openedSys s).ksyms = some syms from hsyms]
      rfl
    obtain ⟨c1, c2, c3, c4, c5, c6, c7, c8, c9, c10, c11, c12, c13, c14, c15,
            c16, c17⟩ := create_flushAll fnm accept (openedSys s) rfl
    have hmapnames : (createDirectives fnm (openedSys s)).map evnameOf = names := by
      rw [hdirsO, List.map_map, hnames]
      congr 1
    have hnamepfx : ∀ nm ∈ names, (globPfx s.group s.pid).data.isPrefixOf nm.data = true := by
      intro nm hnm
      rw [hnames] at hnm
      obtain ⟨sym, _, hsym⟩ := List.mem_map.mp hnm
      subst hsym
      rw [String.data_append, List.isPrefixOf_iff_prefix]
      exact List.prefix_append _ _
    have hdisj : ∀ nm ∈ names, nm ∉ s.events := by
      intro nm hnm hin
      have : nm ∈ s.events.filter (fun e =>
          (globPfx s.group s.pid).data.isPrefixOf e.data) :=
        List.mem_filter.mpr ⟨hin, hnamepfx nm hnm⟩
      rw [hclean] at this
      exact absurd this (List.not_mem_nil _)
    have hevents : (afterCreate fnm accept s).events = s.events ++ names := by
      show (xprobe_create fnm accept flushAll (openedSys s)).2.events = _
      rw [c2, hmapnames]
      exact foldl_addEvent_all accept names s.events hacc hndp hdisj
    have hdisc : attachDiscovered fnm accept s = names := by
      unfold attachDiscovered
      rw [hevents, List.filter_append, hclean, List.nil_append,
          List.filter_eq_self.mpr hnamepfx]
    have hne : attachDiscovered fnm accept s ≠ [] := by
      rw [hdisc, hnames]
      intro hnil
      exact hmne (List.map_eq_nil.mp hnil)
    have hatt' : ∀ e ∈ attachDiscovered fnm accept s, 0 ≤ attachFn e := by
      rw [hdisc]
      exact hatt
    obtain ⟨a1, a2, a3, a4, a5, a6, a7, a8, a9, a10, a11, a12⟩ :=
      attach_ok fnm accept attachFn s hclean hne hatt'
    exact ⟨a1, by rw [a5, hdisc]⟩

/-- Witness for C7: symbol source `{foo, foobar, bar}` and pattern
`foo*` yield exactly 2 create directives, a literal target yields
exactly 1, and attach acquires 2 handles. -/
theorem pattern_expansion_witness :
    ((["foo", "foobar", "bar"] : List String).filter
        (fnmatchModel patSys.xp.pattern)).length = 2
    ∧ ((xprobe_create fnmatchModel acceptAll flushAll patSys).2.chan.written
        = patSys.chan.written ++ (((["foo", "foobar", "bar"] : List String).filter
            (fnmatchModel patSys.xp.pattern)).map fun sym =>
              Directive.create (mkStem patSys.xp.typ patSys.group patSys.pid)
                (sanitize sym) sym)
       ∧ (xprobe_create fnmatchModel acceptAll flushAll patSys).2.xp.n_evs
           = patSys.xp.n_evs + ((["foo", "foobar", "bar"] : List String).filter
               (fnmatchModel patSys.xp.pattern)).length)
    ∧ ((xprobe_create fnmatchModel acceptAll flushAll litSys).2.chan.written
        = litSys.chan.written ++ [Directive.create
            (mkStem litSys.xp.typ litSys.group litSys.pid)
            (sanitize litSys.xp.pattern) litSys.xp.pattern]
       ∧ (xprobe_create fnmatchModel acceptAll flushAll litSys).2.xp.n_evs
           = litSys.xp.n_evs + 1)
    ∧ ((xprobe_attach fnmatchModel acceptAll flushAll (fun _ => 7)
          true true patSys).1 = 0
       ∧ (xprobe_attach fnmatchModel acceptAll flushAll (fun _ => 7)
            true true patSys).2.attachedFds
           = patSys.attachedFds
             ++ (((["foo", "foobar", "bar"] : List String).filter
                 (fnmatchModel patSys.xp.pattern)).map
                 (fun sym => globPfx patSys.group patSys.pid ++ sanitize sym)).map
                 (fun _ => 7))
    ∧ (xprobe_attach fnmatchModel acceptAll flushAll (fun _ => 7)
        true true patSys).2.attachedFds.length = 2 := by
  have h := pattern_expansion fnmatchModel acceptAll (fun _ => 7) patSys
  have hlit := pattern_expansion fnmatchModel acceptAll (fun _ => 7) litSys
  exact ⟨by decide,
         h.1 ["foo", "foobar", "bar"] rfl (by decide) rfl,
         hlit.2.1 (Or.inl (by decide)) rfl,
         h.2.2 ["foo", "foobar", "bar"] rfl (by decide) (by decide) (by decide)
           (by decide) (by decide) (by decide),
         by decide⟩
